import Mathlib

/-!
Verification development for the PowerStore MCP server's tool generator
(`powerstore_mcp/tool_generator.py`), its OpenAPI loader, and the request
dispatcher's validation step.

The Python code is dynamically typed: a loaded OpenAPI document is a tree of
`None`/`bool`/`int`/`str`/`list`/`dict` values, and the generator's
per-endpoint `try/except` absorbs any exception raised while building a single
tool.  We therefore embed the code over a Python-value type `PyVal`; operations
that can raise in Python return `Except PyErr _`, and the absorbing
`try/except` is the catch at the per-endpoint level.  Dictionaries are modelled
as association lists with Python's key-equality (where `True == 1`), Python's
insert-or-replace update, and a hashability check on keys (lists and dicts are
unhashable and raise `TypeError` when used as keys).  Floats and non-string
text encodings are outside the model; string operations are modelled at ASCII
fidelity.
-/

set_option maxHeartbeats 1000000

namespace PowerStore

/-- A Python value as produced by `json.load` / `yaml.safe_load` and
manipulated by `tool_generator.py`. -/
inductive PyVal where
  | none : PyVal
  | bool : Bool → PyVal
  | int : Int → PyVal
  | str : String → PyVal
  | list : List PyVal → PyVal
  | dict : List (PyVal × PyVal) → PyVal

/-- The exception kinds raised by the code paths we model.  The generator's
`except Exception` catches every one of them, so the distinction only matters
for readability. -/
inductive PyErr where
  | typeError : PyErr
  | attributeError : PyErr
  | keyError : PyErr
  deriving DecidableEq

/-- Python `==` on the modelled values: `True == 1`, `False == 0`, lists and
dicts compare structurally. -/
def pyEq : PyVal → PyVal → Bool
  | .none, .none => true
  | .bool a, .bool b => a == b
  | .bool a, .int n => (if a then (1 : Int) else 0) == n
  | .int n, .bool b => n == (if b then (1 : Int) else 0)
  | .int a, .int b => a == b
  | .str a, .str b => a == b
  | .list a, .list b => pyEqList a b
  | .dict a, .dict b => pyEqKvs a b
  | _, _ => false
where
  pyEqList : List PyVal → List PyVal → Bool
    | [], [] => true
    | x :: xs, y :: ys => pyEq x y && pyEqList xs ys
    | _, _ => false
  pyEqKvs : List (PyVal × PyVal) → List (PyVal × PyVal) → Bool
    | [], [] => true
    | (k, v) :: xs, (k', v') :: ys => pyEq k k' && pyEq v v' && pyEqKvs xs ys
    | _, _ => false

/-- Python truthiness (`bool(x)`). -/
def pyTruthy : PyVal → Bool
  | .none => false
  | .bool b => b
  | .int n => n != 0
  | .str s => s != ""
  | .list xs => !xs.isEmpty
  | .dict kvs => !kvs.isEmpty

/-- Whether a value is hashable (usable as a dict key / `in` operand on a
dict).  Lists and dicts raise `TypeError` when hashed. -/
def pyHashable : PyVal → Bool
  | .list _ => false
  | .dict _ => false
  | _ => true

/-- Python `s.startswith(pre)` at the character level. -/
def strStartsWith (s pre : String) : Bool :=
  pre.data.isPrefixOf s.data

/-- Character-level worker for `str.split(sep)` with a nonempty separator:
left-to-right, non-overlapping.  The fuel argument (instantiated with the
length of the text) only makes the recursion structural. -/
def splitOnList (sep : List Char) : Nat → List Char → List Char → List (List Char)
  | _, [], acc => [acc.reverse]
  | 0, cs, acc => [acc.reverse ++ cs]
  | fuel + 1, c :: cs, acc =>
      if sep.isPrefixOf (c :: cs) then
        acc.reverse :: splitOnList sep fuel ((c :: cs).drop sep.length) []
      else
        splitOnList sep fuel cs (c :: acc)

/-- Python `s.split(sep)` for a nonempty separator (the only way the embedded code
calls it). -/
def pySplit (s sep : String) : List String :=
  (splitOnList sep.data s.data.length s.data []).map (fun cs => String.mk cs)

/-- Python `sub in s` on strings: the empty string is in everything; otherwise `s`
splits into more than one piece on `sub`. -/
def pyInStr (sub s : String) : Bool :=
  sub == "" || (pySplit s sub).length != 1

/-- Lexicographic comparison of character lists by code point — the order
`sorted` uses on strings. -/
def strLeChars : List Char → List Char → Bool
  | [], _ => true
  | _ :: _, [] => false
  | a :: as, b :: bs =>
      if a.toNat < b.toNat then true
      else if b.toNat < a.toNat then false
      else strLeChars as bs

/-- First value bound to key `k` in an association list, under Python key
equality. -/
def dictFind? (kvs : List (PyVal × PyVal)) (k : PyVal) : Option PyVal :=
  match kvs with
  | [] => Option.none
  | (k', v) :: rest => if pyEq k' k then some v else dictFind? rest k

/-- Python `d.get(k, default)` for a dict already known to be a dict and a key known
to be hashable. -/
def dictGet (kvs : List (PyVal × PyVal)) (k d : PyVal) : PyVal :=
  (dictFind? kvs k).getD d

/-- Python `k in d` for a dict (hashable key assumed). -/
def dictHasKey (kvs : List (PyVal × PyVal)) (k : PyVal) : Bool :=
  (dictFind? kvs k).isSome

/-- Python `d[k] = v`: replace the first binding of `k` in place, else append. -/
def dictSet (kvs : List (PyVal × PyVal)) (k v : PyVal) : List (PyVal × PyVal) :=
  match kvs with
  | [] => [(k, v)]
  | (k', v') :: rest =>
      if pyEq k' k then (k', v) :: rest else (k', v') :: dictSet rest k v

/-- Python `x.get(k, d)` on an arbitrary value: `AttributeError` unless `x` is a
dict, `TypeError` if the key is unhashable. -/
def pyGet (x k d : PyVal) : Except PyErr PyVal :=
  match x with
  | .dict kvs => if pyHashable k then .ok (dictGet kvs k d) else .error .typeError
  | _ => .error .attributeError

/-- Python `k in x`: substring test on strings, membership on lists, key membership
on dicts, `TypeError` otherwise (and for unhashable keys on dicts). -/
def pyContains (x k : PyVal) : Except PyErr Bool :=
  match x with
  | .str s =>
      match k with
      | .str sub => .ok (pyInStr sub s)
      | _ => .error .typeError
  | .list xs => .ok (xs.any (fun e => pyEq e k))
  | .dict kvs => if pyHashable k then .ok (dictHasKey kvs k) else .error .typeError
  | _ => .error .typeError

/-- Python `x[k]` with a non-integer key: only dicts succeed (`KeyError` when the key
is missing); strings and lists need integer indices, everything else is not
subscriptable. -/
def pySubscript (x k : PyVal) : Except PyErr PyVal :=
  match x with
  | .dict kvs =>
      if pyHashable k then
        match dictFind? kvs k with
        | some v => .ok v
        | Option.none => .error .keyError
      else .error .typeError
  | _ => .error .typeError

/-- Iterating a value (`for e in x`): lists yield elements, strings yield
their characters as one-character strings, dicts yield their keys; other
values are not iterable. -/
def pyIterate : PyVal → Except PyErr (List PyVal)
  | .list xs => .ok xs
  | .str s => .ok (s.data.map (fun c => PyVal.str (String.mk [c])))
  | .dict kvs => .ok (kvs.map (fun kv => kv.1))
  | _ => .error .typeError

/-- Python `x[:n]` for a nonnegative literal bound: strings and lists are sliced,
everything else raises `TypeError`. -/
def pySlice (x : PyVal) (n : Nat) : Except PyErr PyVal :=
  match x with
  | .str s => .ok (.str (String.mk (s.data.take n)))
  | .list xs => .ok (.list (xs.take n))
  | _ => .error .typeError

/-- Python `repr` of a string, at ASCII fidelity: single quotes preferred, double
quotes when the text holds a single quote but no double quote; backslash, the
quote character, and the common control characters are escaped. -/
def pyReprStr (s : String) : String :=
  let q : Char := if s.data.contains '\'' && !s.data.contains '"' then '"' else '\''
  let esc : Char → String := fun c =>
    if c = '\\' then "\\\\"
    else if c = q then "\\" ++ String.mk [q]
    else if c = '\n' then "\\n"
    else if c = '\r' then "\\r"
    else if c = '\t' then "\\t"
    else String.mk [c]
  String.mk [q] ++ String.join (s.data.map esc) ++ String.mk [q]

/-- Python `repr` on the modelled values (ASCII fidelity for strings). -/
def pyRepr : PyVal → String
  | .none => "None"
  | .bool b => if b then "True" else "False"
  | .int n => toString n
  | .str s => pyReprStr s
  | .list xs => "[" ++ String.intercalate ", " (pyReprList xs) ++ "]"
  | .dict kvs => "\x7b" ++ String.intercalate ", " (pyReprKvs kvs) ++ "\x7d"
where
  pyReprList : List PyVal → List String
    | [] => []
    | x :: xs => pyRepr x :: pyReprList xs
  pyReprKvs : List (PyVal × PyVal) → List String
    | [] => []
    | (k, v) :: kvs => (pyRepr k ++ ": " ++ pyRepr v) :: pyReprKvs kvs

/-- Python `str()` / f-string formatting of a value. -/
def pyStr : PyVal → String
  | .str s => s
  | v => pyRepr v


/-- Python `str.lower()` at ASCII fidelity. -/
def pyLower (s : String) : String := String.mk (s.data.map Char.toLower)

/-- Python `str.upper()` at ASCII fidelity. -/
def pyUpper (s : String) : String := String.mk (s.data.map Char.toUpper)

/-- Python `str.capitalize()` at ASCII fidelity: first character uppercased, the
rest lowercased. -/
def pyCapitalize (s : String) : String :=
  match s.data with
  | [] => ""
  | c :: rest => String.mk (c.toUpper :: rest.map Char.toLower)

/-- The recurring comprehension
`[p for p in path.split("/") if p and not p.startswith("{")]`. -/
def pathSegments (path : String) : List String :=
  (pySplit path "/").filter (fun p => p != "" && !(strStartsWith p "\x7b"))

/-- Maximum number of fields to show in a description
(`MAX_FIELDS_DISPLAY`). -/
def MAX_FIELDS_DISPLAY : Nat := 20

/-- The constant `MAX_KEY_FIELDS`. -/
def MAX_KEY_FIELDS : Nat := 10

/-- The constant `MAX_ENUM_VALUES`. -/
def MAX_ENUM_VALUES : Nat := 5

/-- Embeds `ToolGenerator._get_resource_name_from_path`. -/
def get_resource_name_from_path (path : String) : String :=
  (pathSegments path).headD ""

/-- Cleaning step inside `_generate_tool_name_from_path`:
`"".join(c if c.isalnum() else "_" for c in part)`. -/
def cleanPart (p : String) : String :=
  String.mk (p.data.map (fun c => if c.isAlphanum then c else '_'))

/-- Embeds `ToolGenerator._generate_tool_name_from_path`. -/
def generate_tool_name_from_path (path method : String) : String :=
  let path_parts := pathSegments path
  let parts := [method] ++ path_parts
  parts.enum.foldl
    (fun name ip =>
      let cleaned := cleanPart ip.2
      if ip.1 == 0 then pyLower cleaned else name ++ pyCapitalize cleaned)
    ""

/-- The generator's `tool_names` attribute: a Python dict from (hashable)
candidate name to its usage counter. -/
abbrev NameState := List (PyVal × Int)

/-- The lookup `self.tool_names[k]`. -/
def nsLookup (st : NameState) (k : PyVal) : Option Int :=
  match st with
  | [] => Option.none
  | (k', n) :: rest => if pyEq k' k then some n else nsLookup rest k

/-- The update `self.tool_names[k] = n` (replace in place or append). -/
def nsSet (st : NameState) (k : PyVal) (n : Int) : NameState :=
  match st with
  | [] => [(k, n)]
  | (k', n') :: rest =>
      if pyEq k' k then (k', n) :: rest else (k', n') :: nsSet rest k n

/-- Embeds `ToolGenerator._make_unique_name`.  The test `tool_name in self.tool_names` hashes
the candidate (unhashable candidates raise); on a repeat the counter is
bumped *before* `path.split` runs, so the state update survives a later
`AttributeError` on a non-string path. -/
def make_unique_name (tool_name path : PyVal) (st : NameState) :
    Except PyErr PyVal × NameState :=
  if !pyHashable tool_name then (.error .typeError, st)
  else
    match nsLookup st tool_name with
    | some n =>
        let count := n + 1
        let st' := nsSet st tool_name count
        match path with
        | .str p =>
            let path_parts := pathSegments p
            let path_suffix :=
              if !path_parts.isEmpty then String.intercalate "_" path_parts
              else toString count
            (.ok (.str (pyStr tool_name ++ "_" ++ path_suffix)), st')
        | _ => (.error .attributeError, st')
    | Option.none => (.ok tool_name, nsSet st tool_name 0)

/-- Embeds `ToolGenerator._convert_openapi_type`, the dict lookup `type_mapping.get(t, "string")` written as the equivalent chain of key comparisons;
an unhashable argument raises `TypeError` at the dict lookup. -/
def convert_openapi_type (t : PyVal) : Except PyErr PyVal :=
  if !pyHashable t then .error .typeError
  else
    .ok (.str (
      if pyEq t (.str "integer") then "number"
      else if pyEq t (.str "number") then "number"
      else if pyEq t (.str "string") then "string"
      else if pyEq t (.str "boolean") then "boolean"
      else if pyEq t (.str "array") then "array"
      else if pyEq t (.str "object") then "object"
      else "string"))

/-- The `host` property schema of `_generate_input_schema`. -/
def hostSchema : PyVal :=
  .dict [(.str "type", .str "string"),
         (.str "description", .str "PowerStore host (e.g., powerstore.example.com)")]

/-- The `username` property schema of `_generate_input_schema`. -/
def usernameSchema : PyVal :=
  .dict [(.str "type", .str "string"),
         (.str "description", .str "PowerStore username")]

/-- The `password` property schema of `_generate_input_schema`. -/
def passwordSchema : PyVal :=
  .dict [(.str "type", .str "string"),
         (.str "description", .str "PowerStore password")]

/-- The initial `properties` dict of `_generate_input_schema`. -/
def baseProperties : List (PyVal × PyVal) :=
  [(.str "host", hostSchema), (.str "username", usernameSchema),
   (.str "password", passwordSchema)]

/-- The initial `required` list of `_generate_input_schema`. -/
def baseRequired : List PyVal :=
  [.str "host", .str "username", .str "password"]

/-- The `select` universal property schema. -/
def selectSchema : PyVal :=
  .dict [(.str "type", .str "string"),
         (.str "description",
          .str "Comma-separated list of field names to return (e.g., 'id,name,state')")]

/-- The `limit` universal property schema. -/
def limitSchema : PyVal :=
  .dict [(.str "type", .str "integer"),
         (.str "description", .str "Maximum number of results to return")]

/-- The `offset` universal property schema. -/
def offsetSchema : PyVal :=
  .dict [(.str "type", .str "integer"),
         (.str "description", .str "Number of results to skip (for pagination)")]

/-- The `queryParams` universal property schema. -/
def queryParamsSchema : PyVal :=
  .dict [(.str "type", .str "object"),
         (.str "description",
          .str "Additional query filters (e.g., \x7b'state': 'eq.ACTIVE', 'severity': 'eq.Critical'\x7d)"),
         (.str "additionalProperties", .dict [(.str "type", .str "string")])]

/-- The `for param in parameters` loop of `_generate_input_schema`,
accumulating the `properties` dict and the `required` list. -/
def inputSchemaParamsLoop :
    List PyVal → List (PyVal × PyVal) → List PyVal →
    Except PyErr (List (PyVal × PyVal) × List PyVal)
  | [], props, req => .ok (props, req)
  | param :: rest, props, req =>
      match param with
      | .dict pkvs =>
          let param_name := dictGet pkvs (.str "name") .none
          if !pyTruthy param_name then inputSchemaParamsLoop rest props req
          else
            let param_in := dictGet pkvs (.str "in") .none
            if !(pyEq param_in (.str "query") || pyEq param_in (.str "path")) then
              inputSchemaParamsLoop rest props req
            else
              match convert_openapi_type (dictGet pkvs (.str "type") (.str "string")) with
              | .error e => .error e
              | .ok ty =>
                  let schema0 : List (PyVal × PyVal) :=
                    [(.str "type", ty),
                     (.str "description", dictGet pkvs (.str "description") (.str ""))]
                  let schema :=
                    if dictHasKey pkvs (.str "enum") then
                      dictSet schema0 (.str "enum") (dictGet pkvs (.str "enum") .none)
                    else schema0
                  if !pyHashable param_name then .error .typeError
                  else
                    let props' := dictSet props param_name (.dict schema)
                    let req' :=
                      if pyTruthy (dictGet pkvs (.str "required") (.bool false)) then
                        req ++ [param_name]
                      else req
                    inputSchemaParamsLoop rest props' req'
      | _ => .error .attributeError

/-- Embeds `ToolGenerator._generate_input_schema` (the operation is already known to
be a dict by the time this runs). -/
def generate_input_schema (opKvs : List (PyVal × PyVal))
    (is_collection_query : Bool) : Except PyErr PyVal :=
  let parameters := dictGet opKvs (.str "parameters") (.list [])
  match pyIterate parameters with
  | .error e => .error e
  | .ok params =>
      match inputSchemaParamsLoop params baseProperties baseRequired with
      | .error e => .error e
      | .ok (props, req) =>
          let props' :=
            if is_collection_query then
              dictSet (dictSet (dictSet (dictSet props
                (.str "select") selectSchema)
                (.str "limit") limitSchema)
                (.str "offset") offsetSchema)
                (.str "queryParams") queryParamsSchema
            else props
          .ok (.dict [(.str "type", .str "object"),
                      (.str "properties", .dict props'),
                      (.str "required", .list req),
                      (.str "additionalProperties", .bool false)])

/-- Embeds `ToolGenerator._get_filter_examples`. -/
def get_filter_examples (resource_name : String)
    (properties : List (PyVal × PyVal)) : String :=
  let examples : List String :=
    if resource_name == "alert" then
      ["\x7b\"state\": \"eq.ACTIVE\"\x7d - Active alerts only",
       "\x7b\"severity\": \"eq.Critical\"\x7d - Critical severity only",
       "\x7b\"is_acknowledged\": \"eq.false\"\x7d - Unacknowledged alerts",
       "\x7b\"state\": \"eq.ACTIVE\", \"severity\": \"eq.Critical\", \"is_acknowledged\": \"eq.false\"\x7d - Active critical unacknowledged"]
    else if resource_name == "volume" then
      ["\x7b\"state\": \"eq.Ready\"\x7d - Ready volumes only",
       "\x7b\"type\": \"neq.Snapshot\"\x7d - Exclude snapshots"]
    else if resource_name == "appliance" then
      ["\x7b\"is_valid\": \"eq.true\"\x7d - Valid appliances only"]
    else if dictHasKey properties (.str "state") then
      ["\x7b\"state\": \"eq.<value>\"\x7d - Filter by state"]
    else []
  if !examples.isEmpty then
    String.intercalate "\n" (examples.map (fun ex => "- " ++ ex))
  else ""

/-- The fixed `priority_fields` list of `_get_key_fields`. -/
def priority_fields : List String :=
  ["id", "name", "state", "status", "severity", "type", "description",
   "description_l10n", "is_acknowledged", "resource_name", "resource_type",
   "generated_timestamp", "created_timestamp", "size", "logical_used"]

/-- One iteration of the `for field in priority_fields` loop of
`_get_key_fields`: `none` when the field is absent from the properties,
otherwise the formatted line. -/
def keyFieldLine (spec : PyVal) (properties : List (PyVal × PyVal))
    (field : String) : Except PyErr (Option String) :=
  match dictFind? properties (.str field) with
  | Option.none => .ok Option.none
  | some prop =>
      match pyGet prop (.str "description") (.str "") with
      | .error e => .error e
      | .ok descRaw =>
          match pySlice descRaw 80 with
          | .error e => .error e
          | .ok desc =>
              match pyGet prop (.str "enum") .none with
              | .error e => .error e
              | .ok enum =>
                  match pyGet prop (.str "$ref") (.str "") with
                  | .error e => .error e
                  | .ok enum_ref =>
                      let fi0 := "- " ++ field
                      let fi1 := if pyTruthy desc then fi0 ++ ": " ++ pyStr desc else fi0
                      if pyTruthy enum then
                        match pySlice enum MAX_ENUM_VALUES with
                        | .error e => .error e
                        | .ok sliced =>
                            match pyIterate sliced with
                            | .error e => .error e
                            | .ok elems =>
                                .ok (some (fi1 ++ " (values: " ++
                                  String.intercalate ", " (elems.map pyStr) ++ ")"))
                      else
                        match pyContains enum_ref (.str "Enum") with
                        | .error e => .error e
                        | .ok false => .ok (some fi1)
                        | .ok true =>
                            match enum_ref with
                            | .str r =>
                                let enum_name := (pySplit r "/").getLastD ""
                                match pyGet spec (.str "definitions") (.dict []) with
                                | .error e => .error e
                                | .ok defs =>
                                    match pyGet defs (.str enum_name) (.dict []) with
                                    | .error e => .error e
                                    | .ok enum_def =>
                                        match pyGet enum_def (.str "enum") (.list []) with
                                        | .error e => .error e
                                        | .ok enum_values =>
                                            if pyTruthy enum_values then
                                              match pySlice enum_values MAX_ENUM_VALUES with
                                              | .error e => .error e
                                              | .ok sliced =>
                                                  match pyIterate sliced with
                                                  | .error e => .error e
                                                  | .ok elems =>
                                                      .ok (some (fi1 ++ " (values: " ++
                                                        String.intercalate ", " (elems.map pyStr) ++ ")"))
                                            else .ok (some fi1)
                            | _ => .error .attributeError

/-- The full `for field in priority_fields` loop of `_get_key_fields`. -/
def keyFieldsLoop (spec : PyVal) (properties : List (PyVal × PyVal)) :
    List String → Except PyErr (List String)
  | [] => .ok []
  | f :: rest =>
      match keyFieldLine spec properties f with
      | .error e => .error e
      | .ok Option.none => keyFieldsLoop spec properties rest
      | .ok (some line) =>
          match keyFieldsLoop spec properties rest with
          | .error e => .error e
          | .ok lines => .ok (line :: lines)

/-- Embeds `ToolGenerator._get_key_fields` (the unused `resource_name` argument of
the source is dropped). -/
def get_key_fields (spec : PyVal) (properties : List (PyVal × PyVal)) :
    Except PyErr String :=
  match keyFieldsLoop spec properties priority_fields with
  | .error e => .error e
  | .ok lines => .ok (String.intercalate "\n" (lines.take MAX_KEY_FIELDS))

/-- The keys of a properties dict when they are all strings; `none` when some
key is not a string, in which case Python raises (in `sorted` or in the
subsequent `", ".join`). -/
def strKeys? : List (PyVal × PyVal) → Option (List String)
  | [] => some []
  | (.str s, _) :: rest => (strKeys? rest).map (fun l => s :: l)
  | _ => Option.none

/-- Embeds `ToolGenerator._build_enhanced_description`. -/
def build_enhanced_description (spec base_description : PyVal)
    (resource_name : String) (is_collection_query : Bool) :
    Except PyErr PyVal :=
  match pyGet spec (.str "definitions") (.dict []) with
  | .error e => .error e
  | .ok definitions =>
      match pyGet definitions (.str (resource_name ++ "_instance")) (.dict []) with
      | .error e => .error e
      | .ok instance_def =>
          match pyGet instance_def (.str "properties") (.dict []) with
          | .error e => .error e
          | .ok properties =>
              if pyTruthy properties && is_collection_query then
                match properties with
                | .dict propKvs =>
                    match strKeys? propKvs with
                    | Option.none => .error .typeError
                    | some keys =>
                        let field_names :=
                          List.insertionSort (fun a b => strLeChars a.data b.data = true) keys
                        let fields_summary0 :=
                          String.intercalate ", " (field_names.take MAX_FIELDS_DISPLAY)
                        let fields_summary :=
                          if field_names.length > MAX_FIELDS_DISPLAY then
                            fields_summary0 ++ ", ... (" ++ toString field_names.length ++
                              " total fields)"
                          else fields_summary0
                        match base_description with
                        | .str base =>
                            let d1 := base ++ "\n\nAvailable fields for 'select': " ++
                              fields_summary
                            match get_key_fields spec propKvs with
                            | .error e => .error e
                            | .ok key_fields =>
                                let d2 :=
                                  if key_fields != "" then
                                    d1 ++ "\n\nKey fields:\n" ++ key_fields
                                  else d1
                                let filter_examples :=
                                  get_filter_examples resource_name propKvs
                                let d3 :=
                                  if filter_examples != "" then
                                    d2 ++ "\n\nFilter examples (queryParams):\n" ++
                                      filter_examples
                                  else d2
                                .ok (.str d3)
                        | _ => .error .typeError
                | _ => .error .attributeError
              else .ok base_description

/-- The description-and-schema part of `_generate_tool_from_operation`,
between `_make_unique_name` and the assembly of the tool dict.  It does not
depend on the unique name nor on the `tool_names` state. -/
def generate_descr_schema (spec : PyVal) (opKvs : List (PyVal × PyVal))
    (method : String) (path : PyVal) : Except PyErr (PyVal × PyVal) :=
  let summary := dictGet opKvs (.str "summary") .none
  let descr := dictGet opKvs (.str "description") .none
  let base_description :=
    if pyTruthy summary then summary
    else if pyTruthy descr then descr
    else .str (pyUpper method ++ " " ++ pyStr path)
  match path with
  | .str p =>
      let is_collection_query := !(pyInStr "\x7bid\x7d" p)
      let resource_name := get_resource_name_from_path p
      match build_enhanced_description spec base_description resource_name
          is_collection_query with
      | .error e => .error e
      | .ok description =>
          match generate_input_schema opKvs is_collection_query with
          | .error e => .error e
          | .ok input_schema => .ok (description, input_schema)
  | _ => .error .typeError

/-- Embeds `ToolGenerator._generate_tool_from_operation`, without the `try/except`:
`.error` is what the source's broad `except Exception` catches; the
`tool_names` state reflects any `_make_unique_name` update made before a
later exception. -/
def generate_tool_from_operation (spec path : PyVal) (method : String)
    (operation : PyVal) (st : NameState) : Except PyErr PyVal × NameState :=
  match operation with
  | .dict opKvs =>
      let opId := dictGet opKvs (.str "operationId") .none
      let candidate : Except PyErr PyVal :=
        if pyTruthy opId then .ok opId
        else
          match path with
          | .str p => .ok (.str (generate_tool_name_from_path p method))
          | _ => .error .attributeError
      match candidate with
      | .error e => (.error e, st)
      | .ok cand =>
          match make_unique_name cand path st with
          | (.error e, st') => (.error e, st')
          | (.ok tool_name, st') =>
              match generate_descr_schema spec opKvs method path with
              | .error e => (.error e, st')
              | .ok (description, input_schema) =>
                  (.ok (.dict [(.str "name", tool_name),
                               (.str "description", description),
                               (.str "inputSchema", input_schema)]), st')
  | _ => (.error .attributeError, st)

/-- The `for path, path_item in paths.items()` loop of
`ToolGenerator.generate_tools`.  The `"get" in path_item` test and the
`path_item["get"]` subscript run *outside* the per-endpoint `try/except`, so
their exceptions abort the whole build; a failure inside
`_generate_tool_from_operation` is caught and the endpoint skipped. -/
def generate_tools_aux (spec : PyVal) :
    List (PyVal × PyVal) → NameState → Except PyErr (List PyVal) × NameState
  | [], st => (.ok [], st)
  | (path, path_item) :: rest, st =>
      match pyContains path_item (.str "get") with
      | .error e => (.error e, st)
      | .ok false => generate_tools_aux spec rest st
      | .ok true =>
          match pySubscript path_item (.str "get") with
          | .error e => (.error e, st)
          | .ok operation =>
              match generate_tool_from_operation spec path "get" operation st with
              | (.ok tool, st') =>
                  match generate_tools_aux spec rest st' with
                  | (.ok tools, st'') => (.ok (tool :: tools), st'')
                  | (.error e, st'') => (.error e, st'')
              | (.error _, st') => generate_tools_aux spec rest st'

/-- Embeds `ToolGenerator.generate_tools`, with the generator's `tool_names` state
threaded explicitly (it persists on `self` across calls). -/
def generate_tools (spec : PyVal) (st : NameState) :
    Except PyErr (List PyVal) × NameState :=
  match spec with
  | .dict kvs =>
      match dictGet kvs (.str "paths") (.dict []) with
      | .dict pathKvs => generate_tools_aux spec pathKvs st
      | _ => (.error .attributeError, st)
  | _ => (.error .attributeError, st)

/-- The `name` field of a generated tool dict. -/
def toolName (t : PyVal) : PyVal :=
  match t with
  | .dict kvs => dictGet kvs (.str "name") .none
  | _ => .none

/-- The `name` fields of a generated tool list. -/
def toolNames (ts : List PyVal) : List PyVal := ts.map toolName

/-- The `description` field of a generated tool dict. -/
def toolDescription (t : PyVal) : PyVal :=
  match t with
  | .dict kvs => dictGet kvs (.str "description") .none
  | _ => .none

/-- The `inputSchema` field of a generated tool dict. -/
def toolSchema (t : PyVal) : PyVal :=
  match t with
  | .dict kvs => dictGet kvs (.str "inputSchema") .none
  | _ => .none

/-- The `required` list of a generated input schema. -/
def schemaRequired (s : PyVal) : Option (List PyVal) :=
  match s with
  | .dict kvs =>
      match dictFind? kvs (.str "required") with
      | some (.list req) => some req
      | _ => Option.none
  | _ => Option.none

/-- The binding of property `a` in a generated input schema. -/
def schemaProp (s : PyVal) (a : String) : Option PyVal :=
  match s with
  | .dict kvs =>
      match dictFind? kvs (.str "properties") with
      | some (.dict props) => dictFind? props (.str a)
      | _ => Option.none
  | _ => Option.none

/-- The projection `schemaRequired` through an `Except` result (used to state closed facts
about concrete runs). -/
def schemaRequiredOfResult (r : Except PyErr PyVal) : Option (List PyVal) :=
  match r with
  | .ok s => schemaRequired s
  | .error _ => Option.none

/-- The projection `schemaProp` through an `Except` result. -/
def schemaPropOfResult (r : Except PyErr PyVal) (a : String) : Option PyVal :=
  match r with
  | .ok s => schemaProp s a
  | .error _ => Option.none

/-- Names, in declaration order, of the operation parameters that the schema
loop appends to `required`: dict-shaped, truthy `name`, `in` among
`query`/`path`, truthy `required` flag.  (Non-dict entries abort the loop, so
their tail is irrelevant.) -/
def requiredParamNames : List PyVal → List PyVal
  | [] => []
  | .dict pkvs :: rest =>
      let nm := dictGet pkvs (.str "name") .none
      let pin := dictGet pkvs (.str "in") .none
      if pyTruthy nm && (pyEq pin (.str "query") || pyEq pin (.str "path")) &&
          pyTruthy (dictGet pkvs (.str "required") (.bool false)) then
        nm :: requiredParamNames rest
      else requiredParamNames rest
  | _ :: _ => []

/-- Names of the operation parameters that the schema loop inserts into
`properties`: dict-shaped, truthy `name`, `in` among `query`/`path`. -/
def processedParamNames : List PyVal → List PyVal
  | [] => []
  | .dict pkvs :: rest =>
      let nm := dictGet pkvs (.str "name") .none
      let pin := dictGet pkvs (.str "in") .none
      if pyTruthy nm && (pyEq pin (.str "query") || pyEq pin (.str "path")) then
        nm :: processedParamNames rest
      else processedParamNames rest
  | _ :: _ => []

/-- The four universal collection-query parameter names. -/
def universalParamNames : List String := ["select", "limit", "offset", "queryParams"]

/-- Reference description of `generate_tools` on a document whose path
entries are all dicts: iterate the path table, take the `get` operation when
one is declared, keep the descriptors of the endpoints whose generation
succeeds and silently drop the ones whose generation fails. -/
def collect_tools (spec : PyVal) :
    List (PyVal × PyVal) → NameState → List PyVal × NameState
  | [], st => ([], st)
  | (path, path_item) :: rest, st =>
      match path_item with
      | .dict ikvs =>
          match dictFind? ikvs (.str "get") with
          | some operation =>
              match generate_tool_from_operation spec path "get" operation st with
              | (.ok tool, st') =>
                  let r := collect_tools spec rest st'
                  (tool :: r.1, r.2)
              | (.error _, st') => collect_tools spec rest st'
          | Option.none => collect_tools spec rest st
      | _ => ([], st)

/-- The two error kinds of `load_openapi_spec`: `OpenAPILoadError` for an
absent file, `OpenAPIParseError` for unparsable content. -/
inductive SpecLoadErr where
  | loadError : SpecLoadErr
  | parseError : SpecLoadErr
  deriving DecidableEq

/-- Python `pathlib.Path(file_path).suffix`: the extension of the final path
component — the part from the last dot, provided that dot is neither the
first nor the last character of the component. -/
def pathSuffix (file_path : String) : String :=
  let name := ((pySplit file_path "/").filter (fun c => c != "")).getLastD ""
  let cs := name.data
  match ((cs.enum.filter (fun p => p.2 == '.')).map (fun p => p.1)).getLast? with
  | some i => if 0 < i && i + 1 < cs.length then String.mk (cs.drop i) else ""
  | Option.none => ""

/-- Embeds `load_openapi_spec`, over an abstract filesystem (`fs p = none` means the
file is absent) and abstract parsers (`none` models `json.JSONDecodeError`
resp. `yaml.YAMLError`).  An `OSError` during a read of a present file is
outside the model. -/
def load_openapi_spec (fs : String → Option String)
    (jsonParse yamlParse : String → Option PyVal) (file_path : String) :
    Except SpecLoadErr PyVal :=
  match fs file_path with
  | Option.none => .error .loadError
  | some content =>
      let sfx := pathSuffix file_path
      if sfx == ".yaml" || sfx == ".yml" then
        match yamlParse content with
        | some doc => .ok doc
        | Option.none => .error .parseError
      else if sfx == ".json" then
        match jsonParse content with
        | some doc => .ok doc
        | Option.none => .error .parseError
      else
        match jsonParse content with
        | some doc => .ok doc
        | Option.none =>
            match yamlParse content with
            | some doc => .ok doc
            | Option.none => .error .parseError

/-- Whether content `c` is unparsable for the format chosen by the extension
of `file_path` (used to state the `SpecParseError` condition). -/
def unparsableFor (jsonParse yamlParse : String → Option PyVal)
    (file_path c : String) : Prop :=
  let sfx := pathSuffix file_path
  if sfx == ".yaml" || sfx == ".yml" then yamlParse c = Option.none
  else if sfx == ".json" then jsonParse c = Option.none
  else jsonParse c = Option.none ∧ yamlParse c = Option.none

/-- The dispatcher's validation error kinds
(`InvalidToolArgumentsError` with no missing list = `MissingArguments`,
`ToolNotFoundError` = `UnknownTool`, `InvalidToolArgumentsError` with its
`missing_args` list = `MissingCredentials`). -/
inductive DispatchErr where
  | missingArguments : DispatchErr
  | unknownTool : DispatchErr
  | missingCredentials : List String → DispatchErr
  deriving DecidableEq

/-- Modelled from the spec: the validation step of
`PowerStoreMCPServer._execute_tool` (`powerstore_mcp/server.py` is not under
`src/`; only its tests are).  Per the spec's dispatcher state machine: fail
`MissingArguments` when `arguments` is absent or empty; fail `UnknownTool`
when the tool name is not in the catalog index; fail `MissingCredentials`
listing every absent key among `host`, `username`, `password`. -/
def execute_tool_validate (catalog : List String) (tool_name : String)
    (arguments : Option (List (String × PyVal))) : Except DispatchErr Unit :=
  match arguments with
  | Option.none => .error .missingArguments
  | some args =>
      if args.isEmpty then .error .missingArguments
      else if !(catalog.contains tool_name) then .error .unknownTool
      else
        let missing := ["host", "username", "password"].filter
          (fun k => !(args.any (fun kv => kv.1 == k)))
        if !missing.isEmpty then .error (.missingCredentials missing)
        else .ok ()

/-- C1's failing input: three paths whose GET operations all carry
`operationId` `x`; the suffix derived for the third (`/b/\x7bid\x7d`) equals the
suffix derived for the second (`/b`). -/
def c1Spec : PyVal :=
  .dict [(.str "paths", .dict [
    (.str "/a", .dict [(.str "get", .dict [(.str "operationId", .str "x")])]),
    (.str "/b", .dict [(.str "get", .dict [(.str "operationId", .str "x")])]),
    (.str "/b/\x7bid\x7d", .dict [(.str "get", .dict [(.str "operationId", .str "x")])])])]

/-- C1's expected (duplicated) name list. -/
def c1Names : List PyVal := [.str "x", .str "x_b", .str "x_b"]

/-- C2's counterexample operation: a single `body` parameter marked
required. -/
def c2Operation : PyVal :=
  .dict [(.str "operationId", .str "postLike"),
         (.str "parameters", .list [.dict [
           (.str "name", .str "payload"), (.str "in", .str "body"),
           (.str "required", .bool true)]])]

/-- C2's witness operation: one required query parameter `state`. -/
def c2WitnessOp : List (PyVal × PyVal) :=
  [(.str "parameters", .list [.dict [
     (.str "name", .str "state"), (.str "in", .str "query"),
     (.str "type", .str "string"), (.str "required", .bool true)]])]

/-- C3's counterexample operation: a singleton endpoint (`/widget/\x7bid\x7d`)
declaring a query parameter named `select`. -/
def c3Operation : PyVal :=
  .dict [(.str "operationId", .str "getWidgetById"),
         (.str "parameters", .list [
           .dict [(.str "name", .str "id"), (.str "in", .str "path"),
                  (.str "required", .bool true)],
           .dict [(.str "name", .str "select"), (.str "in", .str "query"),
                  (.str "type", .str "string")]])]

/-- C4's failing input: the entry of path `/a` is a list containing the
string `get`, so `"get" in path_item` is true but `path_item["get"]` raises
`TypeError` outside the per-endpoint `try/except`. -/
def c4Spec : PyVal :=
  .dict [(.str "paths", .dict [(.str "/a", .list [.str "get"])])]

/-- C4's witness input: one well-formed endpoint and one endpoint whose
`get` operation is malformed (an integer). -/
def c4WitnessSpec : PyVal :=
  .dict [(.str "paths", .dict [
    (.str "/bad", .dict [(.str "get", .int 7)]),
    (.str "/ok", .dict [(.str "get", .dict [(.str "operationId", .str "getOk")])])])]

/-- C5's counterexample input: a single path whose GET operation has
`operationId` `x`. -/
def c5Spec : PyVal :=
  .dict [(.str "paths", .dict [
    (.str "/a", .dict [(.str "get", .dict [(.str "operationId", .str "x")])])])]

/-- C6's counterexample operation: the path parameter `id` is declared but
not marked required. -/
def c6Operation : PyVal :=
  .dict [(.str "operationId", .str "getThingById"),
         (.str "parameters", .list [.dict [
           (.str "name", .str "id"), (.str "in", .str "path"),
           (.str "type", .str "string")]])]

/-- C10's counterexample operation: a parameterless collection endpoint. -/
def c10Operation : PyVal :=
  .dict [(.str "operationId", .str "getVolume")]

/-- The bindings of `c10Operation`. -/
def c10OpKvs : List (PyVal × PyVal) :=
  [(.str "operationId", .str "getVolume")]

/-- C8's witness filesystem: a single JSON file. -/
def c8Fs : String → Option String :=
  fun p => if p == "/etc/spec.json" then some "\x7b\x7d" else Option.none

/-- C8's witness JSON parser: accepts exactly the text of the empty
object. -/
def c8Json : String → Option PyVal :=
  fun c => if c == "\x7b\x7d" then some (.dict []) else Option.none

/-- C8's witness YAML parser: rejects everything. -/
def c8Yaml : String → Option PyVal := fun _ => Option.none

/-- Concatenation of path segments, each cleaned (non-alphanumerics to
underscore) and capitalized — the claim-side description of the name derived
from a path. -/
def camelConcat : List String → String
  | [] => ""
  | s :: rest => pyCapitalize (cleanPart s) ++ camelConcat rest

/-- The credential keys among `host`, `username`, `password` that are absent
from an argument map, in that order. -/
def credsMissing (m : List (String × PyVal)) : List String :=
  ["host", "username", "password"].filter (fun k => !(m.any (fun kv => kv.1 == k)))

/-- The `type` entry of a property schema. -/
def propType (v : PyVal) : Option PyVal :=
  match v with
  | .dict kvs => dictFind? kvs (.str "type")
  | _ => Option.none

/-- The bindings of the `properties` dict of a generated input schema. -/
def schemaPropsList (s : PyVal) : List (PyVal × PyVal) :=
  match s with
  | .dict kvs =>
      match dictFind? kvs (.str "properties") with
      | some (.dict props) => props
      | _ => []
  | _ => []

/-- The path table of `c4WitnessSpec`, as a binding list. -/
def c4WitnessPaths : List (PyVal × PyVal) :=
  [(.str "/bad", .dict [(.str "get", .int 7)]),
   (.str "/ok", .dict [(.str "get", .dict [(.str "operationId", .str "getOk")])])]

/-- C3's witness: a parameterless collection operation. -/
def c3WitnessOp : List (PyVal × PyVal) :=
  [(.str "operationId", .str "getDisk")]

/-- C6's witness operation bindings: one required path parameter `id`. -/
def c6WitnessOp : List (PyVal × PyVal) :=
  [(.str "parameters", .list [.dict [
     (.str "name", .str "id"), (.str "in", .str "path"),
     (.str "type", .str "string"), (.str "required", .bool true)]])]

/-- Two tool descriptors that agree on `description` and `inputSchema` (their
`name` fields may differ). -/
def toolSimilar (t t' : PyVal) : Prop :=
  toolDescription t = toolDescription t' ∧ toolSchema t = toolSchema t'

/-- The generated tool of a `_generate_tool_from_operation` run (a dummy
`none` when the run raised). -/
def toolOfResult (r : Except PyErr PyVal × NameState) : PyVal :=
  match r with
  | (.ok t, _) => t
  | (.error _, _) => .none

/-- The generated tool list of a `generate_tools` run (empty when the run
raised). -/
def toolsOfResult (r : Except PyErr (List PyVal) × NameState) : List PyVal :=
  match r with
  | (.ok ts, _) => ts
  | (.error _, _) => []

/-- The input schema of a description-and-schema computation (a dummy `none`
when it raised). -/
def descrSchemaOfResult (r : Except PyErr (PyVal × PyVal)) : PyVal :=
  match r with
  | .ok ds => ds.2
  | .error _ => .none

theorem pyEq_str_right {x : PyVal} {a : String} :
    pyEq x (.str a) = true ↔ x = .str a := by
  cases x <;> simp [pyEq]

theorem pyEq_str_left {x : PyVal} {a : String} :
    pyEq (.str a) x = true ↔ x = .str a := by
  cases x <;> simp [pyEq]
  exact eq_comm

theorem pyEq_str_refl (a : String) : pyEq (.str a) (.str a) = true := by
  simp [pyEq]

theorem pyEq_str_congr {k' k : PyVal} (h : pyEq k' k = true) (a : String) :
    pyEq k' (.str a) = pyEq k (.str a) := by
  by_cases hk : k = .str a
  · subst hk
    have h' : k' = .str a := pyEq_str_right.mp h
    subst h'
    rfl
  · cases hb : pyEq k' (.str a) with
    | false =>
        cases hc : pyEq k (.str a) with
        | false => rfl
        | true => exact absurd (pyEq_str_right.mp hc) hk
    | true =>
        have h' : k' = .str a := pyEq_str_right.mp hb
        subst h'
        exact absurd (pyEq_str_left.mp h) hk

theorem dictFind?_dictSet_str (d : List (PyVal × PyVal)) (k v : PyVal) (a : String) :
    dictFind? (dictSet d k v) (.str a) =
      if pyEq k (.str a) then some v else dictFind? d (.str a) := by
  induction d with
  | nil =>
      simp only [dictSet, dictFind?]
  | cons hd tl ih =>
      obtain ⟨k', v'⟩ := hd
      by_cases h1 : pyEq k' k = true
      · simp only [dictSet, if_pos h1, dictFind?, pyEq_str_congr h1 a]
        by_cases h2 : pyEq k (.str a) = true
        · simp [h2]
        · simp [h2]
      · simp only [dictSet, if_neg h1, dictFind?, ih]
        by_cases h2 : pyEq k' (.str a) = true
        · have hk : ¬ pyEq k (.str a) = true := by
            intro hc
            have e1 : k = .str a := pyEq_str_right.mp hc
            have e2 : k' = .str a := pyEq_str_right.mp h2
            rw [e1, e2] at h1
            exact h1 (pyEq_str_refl a)
          simp [h2, hk]
        · simp [h2]

theorem dictFind?_dictSet_same_str (d : List (PyVal × PyVal)) (v : PyVal) (a : String) :
    dictFind? (dictSet d (.str a) v) (.str a) = some v := by
  rw [dictFind?_dictSet_str, if_pos (pyEq_str_refl a)]

theorem dictFind?_dictSet_other_str (d : List (PyVal × PyVal)) (k v : PyVal)
    (a : String) (h : ¬ pyEq k (.str a) = true) :
    dictFind? (dictSet d k v) (.str a) = dictFind? d (.str a) := by
  rw [dictFind?_dictSet_str, if_neg h]

theorem mem_dictSet_val {d : List (PyVal × PyVal)} {k₀ v₀ : PyVal}
    {kv : PyVal × PyVal} (h : kv ∈ dictSet d k₀ v₀) : kv ∈ d ∨ kv.2 = v₀ := by
  induction d with
  | nil =>
      simp only [dictSet, List.mem_singleton] at h
      right
      rw [h]
  | cons hd tl ih =>
      obtain ⟨k', v'⟩ := hd
      simp only [dictSet] at h
      by_cases h1 : pyEq k' k₀ = true
      · rw [if_pos h1] at h
        rcases List.mem_cons.mp h with h2 | h2
        · right
          rw [h2]
        · left
          exact List.mem_cons_of_mem _ h2
      · rw [if_neg h1] at h
        rcases List.mem_cons.mp h with h2 | h2
        · left
          rw [h2]
          exact List.mem_cons_self _ _
        · rcases ih h2 with h3 | h3
          · exact Or.inl (List.mem_cons_of_mem _ h3)
          · exact Or.inr h3

theorem mem_dictSet_str {d : List (PyVal × PyVal)} {v₀ : PyVal} {a : String}
    {kv : PyVal × PyVal} (h : kv ∈ dictSet d (.str a) v₀) :
    kv ∈ d ∨ (kv.1 = .str a ∧ kv.2 = v₀) := by
  induction d with
  | nil =>
      simp only [dictSet, List.mem_singleton] at h
      right
      rw [h]
      exact ⟨rfl, rfl⟩
  | cons hd tl ih =>
      obtain ⟨k', v'⟩ := hd
      simp only [dictSet] at h
      by_cases h1 : pyEq k' (.str a) = true
      · rw [if_pos h1] at h
        rcases List.mem_cons.mp h with h2 | h2
        · right
          rw [h2]
          exact ⟨pyEq_str_right.mp h1, rfl⟩
        · left
          exact List.mem_cons_of_mem _ h2
      · rw [if_neg h1] at h
        rcases List.mem_cons.mp h with h2 | h2
        · left
          rw [h2]
          exact List.mem_cons_self _ _
        · rcases ih h2 with h3 | h3
          · exact Or.inl (List.mem_cons_of_mem _ h3)
          · exact Or.inr h3

theorem convert_openapi_type_ok_ne_integer {t ty : PyVal}
    (h : convert_openapi_type t = .ok ty) : ty ≠ .str "integer" := by
  unfold convert_openapi_type at h
  by_cases hh : pyHashable t = true
  · simp only [hh, Bool.not_true, Bool.false_eq_true, if_false, Except.ok.injEq] at h
    subst h
    simp only [ne_eq, PyVal.str.injEq]
    repeat' split
    all_goals decide
  · have hf : pyHashable t = false := by
      cases hp : pyHashable t
      · rfl
      · exact absurd hp hh
    rw [hf] at h
    simp at h

theorem inputSchemaParamsLoop_cons_dict (pkvs : List (PyVal × PyVal))
    (rest : List PyVal) (props : List (PyVal × PyVal)) (req : List PyVal) :
    inputSchemaParamsLoop (.dict pkvs :: rest) props req =
      (if (!pyTruthy (dictGet pkvs (.str "name") .none)) = true then
        inputSchemaParamsLoop rest props req
      else if (!(pyEq (dictGet pkvs (.str "in") .none) (.str "query") ||
            pyEq (dictGet pkvs (.str "in") .none) (.str "path"))) = true then
        inputSchemaParamsLoop rest props req
      else
        match convert_openapi_type (dictGet pkvs (.str "type") (.str "string")) with
        | .error e => .error e
        | .ok ty =>
            if (!pyHashable (dictGet pkvs (.str "name") .none)) = true then
              .error .typeError
            else
              inputSchemaParamsLoop rest
                (dictSet props (dictGet pkvs (.str "name") .none)
                  (.dict (if dictHasKey pkvs (.str "enum") then
                    dictSet [(.str "type", ty),
                      (.str "description", dictGet pkvs (.str "description") (.str ""))]
                      (.str "enum") (dictGet pkvs (.str "enum") .none)
                  else [(.str "type", ty),
                    (.str "description", dictGet pkvs (.str "description") (.str ""))])))
                (if pyTruthy (dictGet pkvs (.str "required") (.bool false)) = true then
                  req ++ [dictGet pkvs (.str "name") .none]
                else req)) := rfl

theorem inputSchemaParamsLoop_required (params : List PyVal) :
    ∀ props req P R,
      inputSchemaParamsLoop params props req = .ok (P, R) →
      R = req ++ requiredParamNames params := by
  induction params with
  | nil =>
      intro props req P R h
      simp only [inputSchemaParamsLoop, Except.ok.injEq, Prod.mk.injEq] at h
      simp [requiredParamNames, ← h.2]
  | cons param rest ih =>
      intro props req P R h
      cases param with
      | dict pkvs =>
          rw [inputSchemaParamsLoop_cons_dict] at h
          by_cases hnm : pyTruthy (dictGet pkvs (.str "name") .none) = true
          · rw [if_neg (by simp [hnm])] at h
            by_cases hin : (pyEq (dictGet pkvs (.str "in") .none) (.str "query") ||
                pyEq (dictGet pkvs (.str "in") .none) (.str "path")) = true
            · rw [if_neg (by simp [hin])] at h
              split at h
              · simp at h
              · next ty hconv =>
                  by_cases hhash : pyHashable (dictGet pkvs (.str "name") .none) = true
                  · rw [if_neg (by simp [hhash])] at h
                    by_cases hreq : pyTruthy (dictGet pkvs (.str "required") (.bool false)) = true
                    · rw [if_pos hreq] at h
                      have := ih _ _ _ _ h
                      rw [this]
                      simp [requiredParamNames, hnm, hin, hreq, List.append_assoc]
                    · rw [if_neg hreq] at h
                      have := ih _ _ _ _ h
                      rw [this]
                      simp only [requiredParamNames, hnm, hin]
                      simp [hreq]
                  · rw [if_pos (by simp [Bool.not_eq_true] at hhash ⊢; exact hhash)] at h
                    simp at h
            · rw [if_pos (by simp [Bool.not_eq_true] at hin ⊢; exact hin)] at h
              have := ih _ _ _ _ h
              rw [this]
              simp only [requiredParamNames]
              simp [hin]
          · rw [if_pos (by simp [Bool.not_eq_true] at hnm ⊢; exact hnm)] at h
            have := ih _ _ _ _ h
            rw [this]
            simp only [requiredParamNames]
            simp [hnm]
      | none => simp [inputSchemaParamsLoop] at h
      | bool b => simp [inputSchemaParamsLoop] at h
      | int n => simp [inputSchemaParamsLoop] at h
      | str s' => simp [inputSchemaParamsLoop] at h
      | list xs => simp [inputSchemaParamsLoop] at h

theorem inputSchemaParamsLoop_key (params : List PyVal) :
    ∀ props req P R a,
      inputSchemaParamsLoop params props req = .ok (P, R) →
      (dictFind? P (.str a)).isSome = true →
      (dictFind? props (.str a)).isSome = true ∨
        PyVal.str a ∈ processedParamNames params := by
  induction params with
  | nil =>
      intro props req P R a h hP
      simp only [inputSchemaParamsLoop, Except.ok.injEq, Prod.mk.injEq] at h
      left
      rw [h.1]
      exact hP
  | cons param rest ih =>
      intro props req P R a h hP
      cases param with
      | dict pkvs =>
          rw [inputSchemaParamsLoop_cons_dict] at h
          by_cases hnm : pyTruthy (dictGet pkvs (.str "name") .none) = true
          · rw [if_neg (by simp [hnm])] at h
            by_cases hin : (pyEq (dictGet pkvs (.str "in") .none) (.str "query") ||
                pyEq (dictGet pkvs (.str "in") .none) (.str "path")) = true
            · rw [if_neg (by simp [hin])] at h
              split at h
              · simp at h
              · next ty hconv =>
                  by_cases hhash : pyHashable (dictGet pkvs (.str "name") .none) = true
                  · rw [if_neg (by simp [hhash])] at h
                    rcases ih _ _ _ _ a h hP with h1 | h1
                    · rw [dictFind?_dictSet_str] at h1
                      by_cases he : pyEq (dictGet pkvs (.str "name") .none) (.str a) = true
                      · right
                        simp only [processedParamNames, hnm, hin]
                        rw [pyEq_str_right] at he
                        simp [← he]
                      · rw [if_neg he] at h1
                        exact Or.inl h1
                    · right
                      simp only [processedParamNames, hnm, hin]
                      simp [h1]
                  · rw [if_pos (by simp [Bool.not_eq_true] at hhash ⊢; exact hhash)] at h
                    simp at h
            · rw [if_pos (by simp [Bool.not_eq_true] at hin ⊢; exact hin)] at h
              rcases ih _ _ _ _ a h hP with h1 | h1
              · exact Or.inl h1
              · right
                simp only [processedParamNames]
                simp [hin, h1]
          · rw [if_pos (by simp [Bool.not_eq_true] at hnm ⊢; exact hnm)] at h
            rcases ih _ _ _ _ a h hP with h1 | h1
            · exact Or.inl h1
            · right
              simp only [processedParamNames]
              simp [hnm, h1]
      | none => simp [inputSchemaParamsLoop] at h
      | bool b => simp [inputSchemaParamsLoop] at h
      | int n => simp [inputSchemaParamsLoop] at h
      | str s' => simp [inputSchemaParamsLoop] at h
      | list xs => simp [inputSchemaParamsLoop] at h

theorem inputSchemaParamsLoop_vals (params : List PyVal) :
    ∀ props req P R,
      inputSchemaParamsLoop params props req = .ok (P, R) →
      (∀ kv ∈ props, propType kv.2 ≠ some (.str "integer")) →
      ∀ kv ∈ P, propType kv.2 ≠ some (.str "integer") := by
  induction params with
  | nil =>
      intro props req P R h hprops
      simp only [inputSchemaParamsLoop, Except.ok.injEq, Prod.mk.injEq] at h
      rw [← h.1]
      exact hprops
  | cons param rest ih =>
      intro props req P R h hprops
      cases param with
      | dict pkvs =>
          rw [inputSchemaParamsLoop_cons_dict] at h
          by_cases hnm : pyTruthy (dictGet pkvs (.str "name") .none) = true
          · rw [if_neg (by simp [hnm])] at h
            by_cases hin : (pyEq (dictGet pkvs (.str "in") .none) (.str "query") ||
                pyEq (dictGet pkvs (.str "in") .none) (.str "path")) = true
            · rw [if_neg (by simp [hin])] at h
              split at h
              · simp at h
              · next ty hconv =>
                  by_cases hhash : pyHashable (dictGet pkvs (.str "name") .none) = true
                  · rw [if_neg (by simp [hhash])] at h
                    refine ih _ _ _ _ h ?_
                    intro kv hkv
                    rcases mem_dictSet_val hkv with h1 | h1
                    · exact hprops kv h1
                    · rw [h1]
                      have hty : ty ≠ .str "integer" :=
                        convert_openapi_type_ok_ne_integer hconv
                      by_cases henum :
                          dictHasKey pkvs (.str "enum") = true
                      · simp only [propType, if_pos henum]
                        rw [dictFind?_dictSet_other_str _ _ _ _ (by decide)]
                        simp [dictFind?, pyEq, hty]
                      · simp only [propType, if_neg henum]
                        simp [dictFind?, pyEq, hty]
                  · rw [if_pos (by simp [Bool.not_eq_true] at hhash ⊢; exact hhash)] at h
                    simp at h
            · rw [if_pos (by simp [Bool.not_eq_true] at hin ⊢; exact hin)] at h
              exact ih _ _ _ _ h hprops
          · rw [if_pos (by simp [Bool.not_eq_true] at hnm ⊢; exact hnm)] at h
            exact ih _ _ _ _ h hprops
      | none => simp [inputSchemaParamsLoop] at h
      | bool b => simp [inputSchemaParamsLoop] at h
      | int n => simp [inputSchemaParamsLoop] at h
      | str s' => simp [inputSchemaParamsLoop] at h
      | list xs => simp [inputSchemaParamsLoop] at h

theorem generate_input_schema_eq (opKvs : List (PyVal × PyVal)) (coll : Bool) :
    generate_input_schema opKvs coll =
      match pyIterate (dictGet opKvs (.str "parameters") (.list [])) with
      | .error e => .error e
      | .ok params =>
          match inputSchemaParamsLoop params baseProperties baseRequired with
          | .error e => .error e
          | .ok (P, R) =>
              .ok (.dict [(.str "type", .str "object"),
                          (.str "properties", .dict (if coll then
                            dictSet (dictSet (dictSet (dictSet P (.str "select") selectSchema)
                              (.str "limit") limitSchema) (.str "offset") offsetSchema)
                              (.str "queryParams") queryParamsSchema else P)),
                          (.str "required", .list R),
                          (.str "additionalProperties", .bool false)]) := rfl

theorem generate_input_schema_inv {opKvs : List (PyVal × PyVal)} {coll : Bool}
    {s : PyVal} {params : List PyVal}
    (hIter : pyIterate (dictGet opKvs (.str "parameters") (.list [])) = .ok params)
    (h : generate_input_schema opKvs coll = .ok s) :
    ∃ P R, inputSchemaParamsLoop params baseProperties baseRequired = .ok (P, R) ∧
      s = .dict [(.str "type", .str "object"),
                 (.str "properties", .dict (if coll then
                    dictSet (dictSet (dictSet (dictSet P (.str "select") selectSchema)
                      (.str "limit") limitSchema) (.str "offset") offsetSchema)
                      (.str "queryParams") queryParamsSchema else P)),
                 (.str "required", .list R),
                 (.str "additionalProperties", .bool false)] := by
  rw [generate_input_schema_eq] at h
  split at h
  · next e heq =>
      rw [hIter] at heq
      exact absurd heq (by simp)
  · next params' heq =>
      rw [hIter] at heq
      injection heq with hpe
      subst hpe
      split at h
      · simp at h
      · next P R hLoop =>
          refine ⟨P, R, hLoop, ?_⟩
          simp only [Except.ok.injEq] at h
          exact h.symm

theorem generate_descr_schema_str_eq (spec : PyVal) (opKvs : List (PyVal × PyVal))
    (m p : String) :
    generate_descr_schema spec opKvs m (.str p) =
      match build_enhanced_description spec
          (if pyTruthy (dictGet opKvs (.str "summary") .none) then
             dictGet opKvs (.str "summary") .none
           else if pyTruthy (dictGet opKvs (.str "description") .none) then
             dictGet opKvs (.str "description") .none
           else .str (pyUpper m ++ " " ++ pyStr (.str p)))
          (get_resource_name_from_path p) (!(pyInStr "\x7bid\x7d" p)) with
      | .error e => .error e
      | .ok description =>
          match generate_input_schema opKvs (!(pyInStr "\x7bid\x7d" p)) with
          | .error e => .error e
          | .ok input_schema => .ok (description, input_schema) := rfl

theorem generate_descr_schema_inv {spec : PyVal} {opKvs : List (PyVal × PyVal)}
    {m p : String} {d s : PyVal}
    (h : generate_descr_schema spec opKvs m (.str p) = .ok (d, s)) :
    generate_input_schema opKvs (!(pyInStr "\x7bid\x7d" p)) = .ok s := by
  rw [generate_descr_schema_str_eq] at h
  split at h
  · simp at h
  · next description hdesc =>
      split at h
      · simp at h
      · next input_schema hschema =>
          simp only [Except.ok.injEq, Prod.mk.injEq] at h
          rw [← h.2]
          exact hschema

theorem generate_descr_schema_not_str {spec : PyVal}
    {opKvs : List (PyVal × PyVal)} {m : String} {path : PyVal}
    (hp : ∀ q, path ≠ PyVal.str q) :
    generate_descr_schema spec opKvs m path = .error .typeError := by
  cases path
  · rfl
  · rfl
  · rfl
  · exact absurd rfl (hp _)
  · rfl
  · rfl

theorem pyStr_ne_of_ne {a b : String} (h : a ≠ b) :
    PyVal.str a ≠ PyVal.str b := by
  intro hc
  injection hc with h'
  exact h h'

theorem some_str_ne {a b : String} (h : a ≠ b) :
    some (PyVal.str a) ≠ some (PyVal.str b) := by
  intro hc
  injection hc with hc'
  exact pyStr_ne_of_ne h hc'

/-- C2 (amended): whenever the input schema of an operation is generated
successfully, its `required` list is exactly `host`, `username`, `password`
followed by the names of the declared parameters that are mappings with a
truthy `name`, a location (`in`) of `query` or `path`, and a truthy
`required` flag, in declaration order.  Parameters with any other location
(such as `body`) are never added, even when the source marks them
required. -/
theorem C2_required_exact (opKvs : List (PyVal × PyVal)) (coll : Bool)
    (params : List PyVal) (s : PyVal)
    (hIter : pyIterate (dictGet opKvs (.str "parameters") (.list [])) = .ok params)
    (h : generate_input_schema opKvs coll = .ok s) :
    schemaRequired s = some (baseRequired ++ requiredParamNames params) := by
  obtain ⟨P, R, hLoop, hs⟩ := generate_input_schema_inv hIter h
  subst hs
  have hR := inputSchemaParamsLoop_required params _ _ _ _ hLoop
  rw [← hR]
  rfl

/-- Witness for C2's amended theorem: an operation with a single required
query parameter `state` yields the required list
`host, username, password, state`. -/
theorem C2_required_exact_witness :
    schemaRequiredOfResult (generate_input_schema c2WitnessOp true) =
      some (baseRequired ++ [PyVal.str "state"]) :=
  C2_required_exact c2WitnessOp true
    [PyVal.dict [(.str "name", .str "state"), (.str "in", .str "query"),
      (.str "type", .str "string"), (.str "required", .bool true)]] _ rfl rfl

/-- C2 counterexample: the descriptor generated for `GET /thing` from an
operation whose only parameter is the `body` parameter `payload`, marked
required in the source.  The schema's required list is just the three
credentials and does not contain `payload`, contradicting the claim that the
name of every required-marked parameter is listed. -/
theorem C2_counterexample :
    (generate_tool_from_operation (.dict []) (.str "/thing") "get"
      c2Operation []).1.isOk = true ∧
    schemaRequired (toolSchema (toolOfResult (generate_tool_from_operation
      (.dict []) (.str "/thing") "get" c2Operation []))) = some baseRequired ∧
    PyVal.str "payload" ∉ baseRequired := by
  refine ⟨rfl, rfl, ?_⟩
  intro hmem
  simp only [baseRequired, List.mem_cons, List.not_mem_nil, or_false] at hmem
  rcases hmem with h | h | h
  · exact pyStr_ne_of_ne (by decide) h
  · exact pyStr_ne_of_ne (by decide) h
  · exact pyStr_ne_of_ne (by decide) h

/-- C6 (amended): a name is in a generated schema's required list exactly
when it is one of the three credential keys or the name of a declared
parameter that is a mapping with truthy `name`, location `query` or `path`,
and a truthy `required` flag.  A path parameter that is not marked required
is not in the list, whether or not a `\x7bparam\x7d` placeholder occurs in the
endpoint's path. -/
theorem C6_required_membership (opKvs : List (PyVal × PyVal)) (coll : Bool)
    (params : List PyVal) (s : PyVal)
    (hIter : pyIterate (dictGet opKvs (.str "parameters") (.list [])) = .ok params)
    (h : generate_input_schema opKvs coll = .ok s) :
    ∀ x, (∃ req, schemaRequired s = some req ∧ x ∈ req) ↔
      x ∈ baseRequired ∨ x ∈ requiredParamNames params := by
  obtain ⟨P, R, hLoop, hs⟩ := generate_input_schema_inv hIter h
  subst hs
  have hR := inputSchemaParamsLoop_required params _ _ _ _ hLoop
  intro x
  constructor
  · rintro ⟨req, hfind, hx⟩
    have hfind' : some R = some req := hfind
    injection hfind' with hRreq
    rw [← hRreq] at hx
    rw [hR] at hx
    exact List.mem_append.mp hx
  · intro hx
    refine ⟨R, rfl, ?_⟩
    rw [hR]
    exact List.mem_append.mpr hx

/-- Witness for C6's amended theorem: in the schema of an operation with one
required path parameter `id`, the membership of the required list is exactly
credentials plus `id`. -/
theorem C6_required_membership_witness :
    ((∃ req, schemaRequiredOfResult (generate_input_schema c6WitnessOp false) =
        some req ∧ PyVal.str "id" ∈ req) ↔
      (PyVal.str "id" ∈ baseRequired ∨
        PyVal.str "id" ∈ requiredParamNames
          [PyVal.dict [(.str "name", .str "id"), (.str "in", .str "path"),
            (.str "type", .str "string"), (.str "required", .bool true)]])) ∧
    PyVal.str "id" ∈ requiredParamNames
      [PyVal.dict [(.str "name", .str "id"), (.str "in", .str "path"),
        (.str "type", .str "string"), (.str "required", .bool true)]] := by
  constructor
  · exact C6_required_membership c6WitnessOp false
      [PyVal.dict [(.str "name", .str "id"), (.str "in", .str "path"),
        (.str "type", .str "string"), (.str "required", .bool true)]] _ rfl rfl
      (PyVal.str "id")
  · exact List.mem_singleton.mpr rfl

/-- C6 counterexample: the descriptor generated for `GET /x/\x7bid\x7d` from an
operation declaring path parameter `id` without a `required` flag.  The
claim says every path parameter is required regardless of marking, but the
schema's required list is just the three credentials and does not contain
`id`. -/
theorem C6_counterexample :
    (generate_tool_from_operation (.dict []) (.str "/x/\x7bid\x7d") "get"
      c6Operation []).1.isOk = true ∧
    schemaRequired (toolSchema (toolOfResult (generate_tool_from_operation
      (.dict []) (.str "/x/\x7bid\x7d") "get" c6Operation []))) = some baseRequired ∧
    PyVal.str "id" ∉ baseRequired := by
  refine ⟨rfl, rfl, ?_⟩
  intro hmem
  simp only [baseRequired, List.mem_cons, List.not_mem_nil, or_false] at hmem
  rcases hmem with h | h | h
  · exact pyStr_ne_of_ne (by decide) h
  · exact pyStr_ne_of_ne (by decide) h
  · exact pyStr_ne_of_ne (by decide) h

/-- C3 (amended): for a successfully generated endpoint, when the path lacks
the substring `\x7bid\x7d` (collection query) the input schema carries all four
universal properties `select`, `limit`, `offset`, `queryParams`, with their
fixed schemas; when the path contains that substring (singleton query) the
four are not added, so any of them present in the schema can only come from
an explicitly declared operation parameter of that name. -/
theorem C3_collection_universal (spec : PyVal) (opKvs : List (PyVal × PyVal))
    (m p : String) (d s : PyVal) (params : List PyVal)
    (hIter : pyIterate (dictGet opKvs (.str "parameters") (.list [])) = .ok params)
    (h : generate_descr_schema spec opKvs m (.str p) = .ok (d, s)) :
    ((!(pyInStr "\x7bid\x7d" p)) = true →
      schemaProp s "select" = some selectSchema ∧
      schemaProp s "limit" = some limitSchema ∧
      schemaProp s "offset" = some offsetSchema ∧
      schemaProp s "queryParams" = some queryParamsSchema) ∧
    ((!(pyInStr "\x7bid\x7d" p)) = false →
      ∀ a ∈ universalParamNames, (schemaProp s a).isSome = true →
        PyVal.str a ∈ processedParamNames params) := by
  have hschema := generate_descr_schema_inv h
  obtain ⟨P, R, hLoop, hs⟩ := generate_input_schema_inv hIter hschema
  constructor
  · intro hcoll
    rw [hs, hcoll]
    refine ⟨?_, ?_, ?_, ?_⟩
    · show dictFind? (dictSet (dictSet (dictSet (dictSet P (.str "select") selectSchema)
        (.str "limit") limitSchema) (.str "offset") offsetSchema)
        (.str "queryParams") queryParamsSchema) (.str "select") = some selectSchema
      rw [dictFind?_dictSet_other_str _ _ _ _ (by decide),
          dictFind?_dictSet_other_str _ _ _ _ (by decide),
          dictFind?_dictSet_other_str _ _ _ _ (by decide),
          dictFind?_dictSet_same_str]
    · show dictFind? (dictSet (dictSet (dictSet (dictSet P (.str "select") selectSchema)
        (.str "limit") limitSchema) (.str "offset") offsetSchema)
        (.str "queryParams") queryParamsSchema) (.str "limit") = some limitSchema
      rw [dictFind?_dictSet_other_str _ _ _ _ (by decide),
          dictFind?_dictSet_other_str _ _ _ _ (by decide),
          dictFind?_dictSet_same_str]
    · show dictFind? (dictSet (dictSet (dictSet (dictSet P (.str "select") selectSchema)
        (.str "limit") limitSchema) (.str "offset") offsetSchema)
        (.str "queryParams") queryParamsSchema) (.str "offset") = some offsetSchema
      rw [dictFind?_dictSet_other_str _ _ _ _ (by decide),
          dictFind?_dictSet_same_str]
    · show dictFind? (dictSet (dictSet (dictSet (dictSet P (.str "select") selectSchema)
        (.str "limit") limitSchema) (.str "offset") offsetSchema)
        (.str "queryParams") queryParamsSchema) (.str "queryParams") = some queryParamsSchema
      rw [dictFind?_dictSet_same_str]
  · intro hcoll a ha hsome
    rw [hs, hcoll] at hsome
    have hP : (dictFind? P (.str a)).isSome = true := hsome
    rcases inputSchemaParamsLoop_key params _ _ _ _ a hLoop hP with h1 | h1
    · exfalso
      fin_cases ha
      · exact absurd h1 (by decide)
      · exact absurd h1 (by decide)
      · exact absurd h1 (by decide)
      · exact absurd h1 (by decide)
    · exact h1

/-- Witness for C3's amended theorem: the parameterless collection endpoint
`GET /disk` gets all four universal properties. -/
theorem C3_collection_universal_witness :
    schemaProp (descrSchemaOfResult (generate_descr_schema (.dict [])
      c3WitnessOp "get" (.str "/disk"))) "select" = some selectSchema ∧
    schemaProp (descrSchemaOfResult (generate_descr_schema (.dict [])
      c3WitnessOp "get" (.str "/disk"))) "limit" = some limitSchema ∧
    schemaProp (descrSchemaOfResult (generate_descr_schema (.dict [])
      c3WitnessOp "get" (.str "/disk"))) "offset" = some offsetSchema ∧
    schemaProp (descrSchemaOfResult (generate_descr_schema (.dict [])
      c3WitnessOp "get" (.str "/disk"))) "queryParams" = some queryParamsSchema :=
  (C3_collection_universal (.dict []) c3WitnessOp "get" "/disk" _ _ _ rfl rfl).1 rfl

/-- C3 counterexample: the singleton endpoint `GET /widget/\x7bid\x7d` declares a
query parameter named `select`, so its generated schema does include the
property `select`, contradicting the claim that a singleton schema includes
none of the four universal properties. -/
theorem C3_counterexample :
    (generate_tool_from_operation (.dict []) (.str "/widget/\x7bid\x7d") "get"
      c3Operation []).1.isOk = true ∧
    (schemaProp (toolSchema (toolOfResult (generate_tool_from_operation
      (.dict []) (.str "/widget/\x7bid\x7d") "get" c3Operation [])))
      "select").isSome = true ∧
    (!(pyInStr "\x7bid\x7d" "/widget/\x7bid\x7d")) = false := by
  exact ⟨rfl, rfl, rfl⟩

/-- C10 (amended): the OpenAPI-to-JSON-Schema type conversion maps `integer`
to `number` and never produces `integer`, so no property derived from a
declared parameter is typed `integer`; the only `integer`-typed properties
in any generated schema are the universal `limit` and `offset` added to
collection queries. -/
theorem C10_integer_only_universal (opKvs : List (PyVal × PyVal)) (coll : Bool)
    (params : List PyVal) (s : PyVal)
    (hIter : pyIterate (dictGet opKvs (.str "parameters") (.list [])) = .ok params)
    (h : generate_input_schema opKvs coll = .ok s) :
    convert_openapi_type (.str "integer") = .ok (.str "number") ∧
    ∀ kv ∈ schemaPropsList s, propType kv.2 = some (.str "integer") →
      coll = true ∧ (kv = (PyVal.str "limit", limitSchema) ∨
        kv = (PyVal.str "offset", offsetSchema)) := by
  refine ⟨rfl, ?_⟩
  obtain ⟨P, R, hLoop, hs⟩ := generate_input_schema_inv hIter h
  have hPvals : ∀ kv ∈ P, propType kv.2 ≠ some (.str "integer") := by
    refine inputSchemaParamsLoop_vals params _ _ _ _ hLoop ?_
    intro kv hkv
    fin_cases hkv
    · exact some_str_ne (by decide)
    · exact some_str_ne (by decide)
    · exact some_str_ne (by decide)
  intro kv hkv hint
  rw [hs] at hkv
  cases coll with
  | false =>
      have hkv' : kv ∈ P := hkv
      exact absurd hint (hPvals kv hkv')
  | true =>
      have hkv' : kv ∈ dictSet (dictSet (dictSet (dictSet P (.str "select") selectSchema)
        (.str "limit") limitSchema) (.str "offset") offsetSchema)
        (.str "queryParams") queryParamsSchema := hkv
      refine ⟨rfl, ?_⟩
      rcases mem_dictSet_str hkv' with h1 | h1
      · rcases mem_dictSet_str h1 with h2 | h2
        · rcases mem_dictSet_str h2 with h3 | h3
          · rcases mem_dictSet_str h3 with h4 | h4
            · exact absurd hint (hPvals kv h4)
            · rw [h4.2] at hint
              exact absurd hint (some_str_ne (by decide))
          · left
            exact Prod.ext h3.1 h3.2
        · right
          exact Prod.ext h2.1 h2.2
      · rw [h1.2] at hint
        exact absurd hint (some_str_ne (by decide))

/-- Witness for C10's amended theorem: in the collection schema of the
parameterless operation `getVolume`, the claim about `integer`-typed
properties holds for the `limit` binding. -/
theorem C10_integer_only_universal_witness :
    convert_openapi_type (.str "integer") = .ok (.str "number") ∧
    (true = true ∧ ((PyVal.str "limit", limitSchema) = (PyVal.str "limit", limitSchema) ∨
      (PyVal.str "limit", limitSchema) = (PyVal.str "offset", offsetSchema))) := by
  refine ⟨(C10_integer_only_universal c10OpKvs true [] _ rfl rfl).1, ?_⟩
  exact (C10_integer_only_universal c10OpKvs true [] _ rfl rfl).2
    (PyVal.str "limit", limitSchema)
    (List.mem_cons_of_mem _ (List.mem_cons_of_mem _ (List.mem_cons_of_mem _
      (List.mem_cons_of_mem _ (List.mem_cons_self _ _))))) rfl

/-- C10 counterexample: the schema generated for the parameterless collection
endpoint `GET /volume` binds the property `limit` to a schema whose declared
type is the string `integer`, so `integer` does appear in a generated input
schema. -/
theorem C10_counterexample :
    (generate_tool_from_operation (.dict []) (.str "/volume") "get"
      c10Operation []).1.isOk = true ∧
    schemaProp (toolSchema (toolOfResult (generate_tool_from_operation
      (.dict []) (.str "/volume") "get" c10Operation []))) "limit" =
      some limitSchema ∧
    propType limitSchema = some (.str "integer") := by
  exact ⟨rfl, rfl, rfl⟩

theorem nameFold_enumFrom (xs : List String) :
    ∀ (n : Nat) (acc : String),
      (List.enumFrom (n + 1) xs).foldl
        (fun name ip =>
          let cleaned := cleanPart ip.2
          if ip.1 == 0 then pyLower cleaned else name ++ pyCapitalize cleaned) acc =
      acc ++ camelConcat xs := by
  induction xs with
  | nil =>
      intro n acc
      simp only [List.enumFrom, List.foldl, camelConcat]
      rw [String.append_empty]
  | cons x xs ih =>
      intro n acc
      simp only [List.enumFrom, List.foldl]
      rw [show ((n + 1 : Nat) == 0) = false from by simp]
      simp only [Bool.false_eq_true, if_false]
      rw [ih (n + 1) (acc ++ pyCapitalize (cleanPart x))]
      show acc ++ pyCapitalize (cleanPart x) ++ camelConcat xs =
        acc ++ (pyCapitalize (cleanPart x) ++ camelConcat xs)
      rw [String.append_assoc]

/-- C7: the candidate name derived from a path for a GET operation without an
`operationId` is the string `get` followed by the concatenation of the
path's non-parameter segments, each with its non-alphanumeric characters
replaced by underscores and then capitalized (first character uppercased,
the rest lowercased, as `str.capitalize` does); `/volume` yields `getVolume`
and `/volume/\x7bid\x7d/snapshot` yields `getVolumeSnapshot`. -/
theorem C7_name_from_path :
    (∀ path : String,
      generate_tool_name_from_path path "get" =
        "get" ++ camelConcat (pathSegments path)) ∧
    generate_tool_name_from_path "/volume" "get" = "getVolume" ∧
    generate_tool_name_from_path "/volume/\x7bid\x7d/snapshot" "get" =
      "getVolumeSnapshot" := by
  refine ⟨?_, rfl, rfl⟩
  intro path
  show (List.enum ("get" :: pathSegments path)).foldl _ "" = _
  rw [show List.enum ("get" :: pathSegments path) =
      (0, "get") :: List.enumFrom 1 (pathSegments path) from rfl]
  rw [List.foldl_cons]
  exact nameFold_enumFrom (pathSegments path) 0 "get"

/-- C8: the loader selects the parser by extension (`.yaml`/`.yml` → YAML,
`.json` → JSON, anything else → JSON with a YAML fallback), fails with the
load error exactly when the file is absent, and fails with the parse error
exactly when the file is present but its content cannot be parsed for the
chosen format. -/
theorem C8_loader (fs : String → Option String)
    (jsonParse yamlParse : String → Option PyVal) (fp : String) :
    ((load_openapi_spec fs jsonParse yamlParse fp = .error .loadError) ↔
      fs fp = Option.none) ∧
    ((load_openapi_spec fs jsonParse yamlParse fp = .error .parseError) ↔
      (∃ c, fs fp = some c ∧ unparsableFor jsonParse yamlParse fp c)) ∧
    (∀ c, fs fp = some c →
      load_openapi_spec fs jsonParse yamlParse fp =
        (if pathSuffix fp == ".yaml" || pathSuffix fp == ".yml" then
          match yamlParse c with
          | some doc => .ok doc
          | Option.none => .error .parseError
        else if pathSuffix fp == ".json" then
          match jsonParse c with
          | some doc => .ok doc
          | Option.none => .error .parseError
        else
          match jsonParse c with
          | some doc => .ok doc
          | Option.none =>
              match yamlParse c with
              | some doc => .ok doc
              | Option.none => .error .parseError)) := by
  cases hf : fs fp with
  | none =>
      refine ⟨?_, ?_, ?_⟩
      · simp [load_openapi_spec, hf]
      · simp [load_openapi_spec, hf]
      · intro c hc
        exact Option.noConfusion hc
  | some c0 =>
      have hload : load_openapi_spec fs jsonParse yamlParse fp =
          (if pathSuffix fp == ".yaml" || pathSuffix fp == ".yml" then
            match yamlParse c0 with
            | some doc => .ok doc
            | Option.none => .error .parseError
          else if pathSuffix fp == ".json" then
            match jsonParse c0 with
            | some doc => .ok doc
            | Option.none => .error .parseError
          else
            match jsonParse c0 with
            | some doc => .ok doc
            | Option.none =>
                match yamlParse c0 with
                | some doc => .ok doc
                | Option.none => .error .parseError) := by
        unfold load_openapi_spec
        rw [hf]
      refine ⟨?_, ?_, ?_⟩
      · rw [hload]
        constructor
        · intro h
          exfalso
          revert h
          split
          · split <;> simp
          · split
            · split <;> simp
            · split
              · simp
              · split <;> simp
        · intro h
          exact Option.noConfusion h
      · rw [hload]
        unfold unparsableFor
        by_cases hy : (pathSuffix fp == ".yaml" || pathSuffix fp == ".yml") = true
        · rw [if_pos hy]
          cases hyp : yamlParse c0 with
          | none => simp [hf, hy, hyp]
          | some doc => simp [hf, hy, hyp]
        · rw [if_neg hy]
          by_cases hj : (pathSuffix fp == ".json") = true
          · rw [if_pos hj]
            cases hjp : jsonParse c0 with
            | none => simp [hf, hy, hj, hjp]
            | some doc => simp [hf, hy, hj, hjp]
          · rw [if_neg hj]
            cases hjp : jsonParse c0 with
            | none =>
                cases hyp : yamlParse c0 with
                | none => simp [hf, hy, hj, hjp, hyp]
                | some doc => simp [hf, hy, hj, hjp, hyp]
            | some doc => simp [hf, hy, hj, hjp]
      · intro c hc
        injection hc with hceq
        subst hceq
        exact hload

/-- Witness for C8: a JSON file at `/etc/spec.json` parses via the JSON
parser; an absent path fails with the load error. -/
theorem C8_loader_witness :
    load_openapi_spec c8Fs c8Json c8Yaml "/etc/spec.json" = .ok (.dict []) ∧
    load_openapi_spec c8Fs c8Json c8Yaml "/etc/missing.json" = .error .loadError := by
  constructor
  · have h := (C8_loader c8Fs c8Json c8Yaml "/etc/spec.json").2.2 "\x7b\x7d" rfl
    rw [h]
    rfl
  · exact (C8_loader c8Fs c8Json c8Yaml "/etc/missing.json").1.mpr rfl

/-- C9 (spec-modelled): the dispatcher's validation fails with
`MissingArguments` when the argument map is absent or empty, with
`UnknownTool` when the tool name is not in the catalog, and — for a known
tool with a nonempty argument map — with `MissingCredentials` listing
exactly the absent keys among `host`, `username`, `password`; supplying only
`host` lists exactly `username` and `password`. -/
theorem C9_dispatch_validation (catalog : List String) (tool_name : String)
    (arguments : Option (List (String × PyVal))) :
    ((arguments = Option.none ∨ arguments = some []) →
      execute_tool_validate catalog tool_name arguments = .error .missingArguments) ∧
    (∀ m, arguments = some m → m ≠ [] → catalog.contains tool_name = false →
      execute_tool_validate catalog tool_name arguments = .error .unknownTool) ∧
    (∀ m, arguments = some m → m ≠ [] → catalog.contains tool_name = true →
      credsMissing m ≠ [] →
      execute_tool_validate catalog tool_name arguments =
        .error (.missingCredentials (credsMissing m))) ∧
    execute_tool_validate ["getAlert"] "getAlert"
      (some [("host", .str "example.com")]) =
      .error (.missingCredentials ["username", "password"]) := by
  refine ⟨?_, ?_, ?_, rfl⟩
  · rintro (h | h) <;> subst h
    · rfl
    · rfl
  · intro m hm hne hcat
    subst hm
    have hne' : m.isEmpty = false := by
      cases m
      · exact absurd rfl hne
      · rfl
    simp only [execute_tool_validate, hne', Bool.false_eq_true, if_false, hcat,
      Bool.not_false, if_true]
  · intro m hm hne hcat hmiss
    subst hm
    have hne' : m.isEmpty = false := by
      cases m
      · exact absurd rfl hne
      · rfl
    have hmiss' : (credsMissing m).isEmpty = false := by
      cases hcm : credsMissing m
      · exact absurd hcm hmiss
      · rfl
    simp only [execute_tool_validate, hne', Bool.not_false, if_true, hcat,
      Bool.not_true, Bool.false_eq_true, if_false]
    have : (["host", "username", "password"].filter
        (fun k => !(m.any (fun kv => kv.1 == k)))) = credsMissing m := rfl
    rw [this, hmiss']
    rfl

/-- Witness for C9: the three validation failures at concrete inputs. -/
theorem C9_dispatch_validation_witness :
    execute_tool_validate ["getAlert"] "getAlert" Option.none =
      .error .missingArguments ∧
    execute_tool_validate ["getAlert"] "nonExistentTool"
      (some [("host", .str "h"), ("username", .str "u"), ("password", .str "p")]) =
      .error .unknownTool ∧
    execute_tool_validate ["getAlert"] "getAlert"
      (some [("host", .str "example.com")]) =
      .error (.missingCredentials ["username", "password"]) := by
  refine ⟨?_, ?_, ?_⟩
  · exact (C9_dispatch_validation ["getAlert"] "getAlert" Option.none).1 (Or.inl rfl)
  · exact (C9_dispatch_validation ["getAlert"] "nonExistentTool" _).2.1 _ rfl
      (by simp) rfl
  · exact (C9_dispatch_validation ["getAlert"] "getAlert" _).2.2.1 _ rfl
      (by simp) rfl (by decide)

theorem generate_tools_aux_cons (spec path item : PyVal)
    (rest : List (PyVal × PyVal)) (st : NameState) :
    generate_tools_aux spec ((path, item) :: rest) st =
      (match pyContains item (.str "get") with
       | .error e => (.error e, st)
       | .ok false => generate_tools_aux spec rest st
       | .ok true =>
           match pySubscript item (.str "get") with
           | .error e => (.error e, st)
           | .ok operation =>
               match generate_tool_from_operation spec path "get" operation st with
               | (.ok tool, st') =>
                   match generate_tools_aux spec rest st' with
                   | (.ok tools, st'') => (.ok (tool :: tools), st'')
                   | (.error e, st'') => (.error e, st'')
               | (.error _, st') => generate_tools_aux spec rest st') := rfl

theorem collect_tools_cons_dict (spec path : PyVal) (dkvs : List (PyVal × PyVal))
    (rest : List (PyVal × PyVal)) (st : NameState) :
    collect_tools spec ((path, .dict dkvs) :: rest) st =
      (match dictFind? dkvs (.str "get") with
       | some operation =>
           match generate_tool_from_operation spec path "get" operation st with
           | (.ok tool, st') =>
               (tool :: (collect_tools spec rest st').1, (collect_tools spec rest st').2)
           | (.error _, st') => collect_tools spec rest st'
       | Option.none => collect_tools spec rest st) := rfl

theorem generate_tools_dict_eq (kvs : List (PyVal × PyVal)) (st : NameState) :
    generate_tools (.dict kvs) st =
      (match dictGet kvs (.str "paths") (.dict []) with
       | .dict pathKvs => generate_tools_aux (.dict kvs) pathKvs st
       | _ => (.error .attributeError, st)) := rfl

theorem generate_tools_aux_eq_collect (spec : PyVal) :
    ∀ pathKvs : List (PyVal × PyVal),
      (∀ pv ∈ pathKvs, ∃ dkvs, pv.2 = PyVal.dict dkvs) →
      ∀ st, generate_tools_aux spec pathKvs st =
        (.ok (collect_tools spec pathKvs st).1, (collect_tools spec pathKvs st).2) := by
  intro pathKvs
  induction pathKvs with
  | nil => intro _ st; rfl
  | cons hd tl ih =>
      intro hdicts st
      obtain ⟨path, item⟩ := hd
      obtain ⟨dkvs, hitem⟩ := hdicts (path, item) (List.mem_cons_self _ _)
      have hitem' : item = PyVal.dict dkvs := hitem
      subst hitem'
      have ih' := ih (fun pv hpv => hdicts pv (List.mem_cons_of_mem _ hpv))
      rw [generate_tools_aux_cons, collect_tools_cons_dict]
      have hcont : pyContains (PyVal.dict dkvs) (.str "get") =
          .ok (dictHasKey dkvs (.str "get")) := rfl
      cases hfind : dictFind? dkvs (.str "get") with
      | none =>
          have hk : dictHasKey dkvs (.str "get") = false := by
            simp [dictHasKey, hfind]
          simp only [hcont, hk, ih' st]
      | some operation =>
          have hk : dictHasKey dkvs (.str "get") = true := by
            simp [dictHasKey, hfind]
          have hsub : pySubscript (PyVal.dict dkvs) (.str "get") = .ok operation := by
            simp [pySubscript, pyHashable, hfind]
          cases hgen : generate_tool_from_operation spec path "get" operation st with
          | mk res st' =>
              cases res with
              | ok tool => simp only [hcont, hk, hsub, hgen, ih' st']
              | error e => simp only [hcont, hk, hsub, hgen, ih' st']

/-- C4 (amended): on a document whose path entries are all mappings,
`generate_tools` does not raise: every endpoint whose `get` operation is
malformed is skipped and every other endpoint still yields its descriptor
(the result is exactly the catalog collected by dropping the per-endpoint
failures).  When some path entry is not a mapping the build can raise,
because `"get" in path_item` and `path_item["get"]` run outside the
per-endpoint `try`/`except`. -/
theorem C4_skip_malformed_endpoints (spec : PyVal)
    (kvs pathKvs : List (PyVal × PyVal)) (st : NameState)
    (hspec : spec = .dict kvs)
    (hpaths : dictGet kvs (.str "paths") (.dict []) = .dict pathKvs)
    (hdicts : ∀ pv ∈ pathKvs, ∃ dkvs, pv.2 = PyVal.dict dkvs) :
    generate_tools spec st =
      (.ok (collect_tools spec pathKvs st).1, (collect_tools spec pathKvs st).2) := by
  subst hspec
  have haux := generate_tools_aux_eq_collect (.dict kvs) pathKvs hdicts st
  rw [generate_tools_dict_eq, hpaths]
  exact haux

/-- Witness for C4's amended theorem: a document with a malformed `/bad`
endpoint (its `get` operation is the integer 7) and a well-formed `/ok`
endpoint; generation succeeds and yields exactly the `getOk` tool. -/
theorem C4_skip_malformed_endpoints_witness :
    generate_tools c4WitnessSpec [] =
      (.ok (collect_tools c4WitnessSpec c4WitnessPaths []).1,
       (collect_tools c4WitnessSpec c4WitnessPaths []).2) ∧
    toolNames (collect_tools c4WitnessSpec c4WitnessPaths []).1 = [.str "getOk"] := by
  constructor
  · refine C4_skip_malformed_endpoints c4WitnessSpec
      [(.str "paths", .dict c4WitnessPaths)] c4WitnessPaths [] rfl rfl ?_
    intro pv hpv
    rcases List.mem_cons.mp hpv with h | h
    · rw [h]
      exact ⟨_, rfl⟩
    · rcases List.mem_cons.mp h with h2 | h2
      · rw [h2]
        exact ⟨_, rfl⟩
      · exact absurd h2 (List.not_mem_nil _)
  · rfl

/-- C4 counterexample: a document whose `/a` path entry is the list
`["get"]`.  Then `"get" in path_item` is true, and `path_item["get"]`
raises `TypeError` outside the per-endpoint `try`/`except`, so
`generate_tools` raises instead of skipping the endpoint. -/
theorem C4_counterexample :
    (generate_tools c4Spec []).1 = .error .typeError := rfl

theorem generate_tool_from_operation_dict_eq (spec path : PyVal) (m : String)
    (opKvs : List (PyVal × PyVal)) (st : NameState) :
    generate_tool_from_operation spec path m (.dict opKvs) st =
      (match (if pyTruthy (dictGet opKvs (.str "operationId") .none) then
                Except.ok (dictGet opKvs (.str "operationId") .none)
              else
                match path with
                | .str p => Except.ok (PyVal.str (generate_tool_name_from_path p m))
                | _ => Except.error PyErr.attributeError : Except PyErr PyVal) with
       | .error e => (.error e, st)
       | .ok cand =>
           match make_unique_name cand path st with
           | (.error e, st') => (.error e, st')
           | (.ok tool_name, st') =>
               match generate_descr_schema spec opKvs m path with
               | .error e => (.error e, st')
               | .ok (description, input_schema) =>
                   (.ok (.dict [(.str "name", tool_name),
                                (.str "description", description),
                                (.str "inputSchema", input_schema)]), st')) := rfl

theorem make_unique_name_ok_str (cand : PyVal) (p : String) (st : NameState)
    (hh : pyHashable cand = true) :
    ∃ n st₂, make_unique_name cand (.str p) st = (.ok n, st₂) := by
  unfold make_unique_name
  simp only [hh, Bool.not_true, Bool.false_eq_true, if_false]
  cases hlk : nsLookup st cand with
  | some n => exact ⟨_, _, rfl⟩
  | none => exact ⟨_, _, rfl⟩

theorem make_unique_name_hashable {cand path : PyVal} {st st₂ : NameState}
    {n : PyVal} (h : make_unique_name cand path st = (.ok n, st₂)) :
    pyHashable cand = true := by
  by_cases hh : pyHashable cand = true
  · exact hh
  · have hf : pyHashable cand = false := by
      cases hx : pyHashable cand
      · rfl
      · exact absurd hx hh
    unfold make_unique_name at h
    rw [hf] at h
    simp at h

theorem make_unique_name_error {cand path : PyVal} {st st₂ : NameState}
    {e : PyErr} (h : make_unique_name cand path st = (.error e, st₂)) :
    pyHashable cand = false ∨ ∀ q, path ≠ PyVal.str q := by
  by_cases hh : pyHashable cand = true
  · right
    unfold make_unique_name at h
    simp only [hh, Bool.not_true, Bool.false_eq_true, if_false] at h
    split at h
    · split at h
      · simp at h
      · next hnp =>
          intro q hq
          exact hnp q hq
    · simp at h
  · left
    cases hx : pyHashable cand
    · rfl
    · exact absurd hx hh

theorem generate_tool_from_operation_ok {spec path : PyVal} {m : String}
    {op t : PyVal} {st st₁ : NameState}
    (h : generate_tool_from_operation spec path m op st = (.ok t, st₁)) :
    ∀ st', ∃ t' st₁',
      generate_tool_from_operation spec path m op st' = (.ok t', st₁') ∧
      toolSimilar t t' := by
  intro st'
  cases op with
  | dict opKvs =>
      rw [generate_tool_from_operation_dict_eq] at h
      rw [generate_tool_from_operation_dict_eq]
      split at h
      · exact absurd h (by simp)
      · next cand hcand =>
          split at h
          · exact absurd h (by simp)
          · next tool_name st₂ hmun =>
              split at h
              · exact absurd h (by simp)
              · next description input_schema hds =>
                  have hh : pyHashable cand = true := make_unique_name_hashable hmun
                  have hstr : ∃ p, path = PyVal.str p := by
                    cases path
                    case str p => exact ⟨p, rfl⟩
                    all_goals
                      exact absurd hds (by
                        rw [generate_descr_schema_not_str
                          (fun q hq => PyVal.noConfusion hq)]
                        simp)
                  obtain ⟨p, hp⟩ := hstr
                  subst hp
                  obtain ⟨n', st₂', hmun'⟩ := make_unique_name_ok_str cand p st' hh
                  simp only [Prod.mk.injEq, Except.ok.injEq] at h
                  refine ⟨PyVal.dict [(.str "name", n'), (.str "description", description),
                    (.str "inputSchema", input_schema)], st₂', ?_, ?_⟩
                  · simp only [hcand, hmun', hds]
                  · rw [← h.1]
                    exact ⟨rfl, rfl⟩
  | none => simp [generate_tool_from_operation] at h
  | bool b => simp [generate_tool_from_operation] at h
  | int n => simp [generate_tool_from_operation] at h
  | str s' => simp [generate_tool_from_operation] at h
  | list xs => simp [generate_tool_from_operation] at h

theorem generate_tool_from_operation_error {spec path : PyVal} {m : String}
    {op : PyVal} {st st₁ : NameState} {e : PyErr}
    (h : generate_tool_from_operation spec path m op st = (.error e, st₁)) :
    ∀ st', ∃ e' st₁',
      generate_tool_from_operation spec path m op st' = (.error e', st₁') := by
  intro st'
  cases op with
  | dict opKvs =>
      rw [generate_tool_from_operation_dict_eq] at h
      rw [generate_tool_from_operation_dict_eq]
      split at h
      · next e0 hcand =>
          refine ⟨e0, st', ?_⟩
          simp only [hcand]
      · next cand hcand =>
          cases hmun' : make_unique_name cand path st' with
          | mk res' st₂' =>
              cases res' with
              | error e' =>
                  refine ⟨e', st₂', ?_⟩
                  simp only [hcand, hmun']
              | ok name' =>
                  split at h
                  · next e0 hmun =>
                      rcases make_unique_name_error hmun with hh | hp
                      · exfalso
                        have := make_unique_name_hashable hmun'
                        rw [hh] at this
                        exact Bool.noConfusion this
                      · refine ⟨.typeError, st₂', ?_⟩
                        simp only [hcand, hmun', generate_descr_schema_not_str hp]
                  · next tool_name st₂ hmun =>
                      split at h
                      · next e0 hds =>
                          refine ⟨e0, st₂', ?_⟩
                          simp only [hcand, hmun', hds]
                      · exact absurd h (by simp)
  | none => exact ⟨.attributeError, st', rfl⟩
  | bool b => exact ⟨.attributeError, st', rfl⟩
  | int n => exact ⟨.attributeError, st', rfl⟩
  | str s' => exact ⟨.attributeError, st', rfl⟩
  | list xs => exact ⟨.attributeError, st', rfl⟩

theorem generate_tools_aux_state_independent (spec : PyVal) :
    ∀ (pathKvs : List (PyVal × PyVal)) (st st₁ : NameState) (ts : List PyVal),
      generate_tools_aux spec pathKvs st = (.ok ts, st₁) →
      ∀ st', ∃ ts' st₁', generate_tools_aux spec pathKvs st' = (.ok ts', st₁') ∧
        List.Forall₂ toolSimilar ts ts' := by
  intro pathKvs
  induction pathKvs with
  | nil =>
      intro st st₁ ts h st'
      simp only [generate_tools_aux, Prod.mk.injEq, Except.ok.injEq] at h
      refine ⟨[], st', rfl, ?_⟩
      rw [← h.1]
      exact List.Forall₂.nil
  | cons hd tl ih =>
      intro st st₁ ts h st'
      obtain ⟨path, item⟩ := hd
      rw [generate_tools_aux_cons] at h
      rw [generate_tools_aux_cons]
      split at h
      · exact absurd h (by simp)
      · next hc =>
          exact ih _ _ _ h st'
      · next hc =>
          split at h
          · exact absurd h (by simp)
          · next operation hsub =>
              split at h
              · next tool st₂ hgen =>
                  obtain ⟨t', st₂', hgen', hsim⟩ :=
                    generate_tool_from_operation_ok hgen st'
                  split at h
                  · next tools st₃ haux =>
                      simp only [Prod.mk.injEq, Except.ok.injEq] at h
                      obtain ⟨ts', st₁', haux', hsim2⟩ := ih _ _ _ haux st₂'
                      refine ⟨t' :: ts', st₁', ?_, ?_⟩
                      · simp only [hgen', haux']
                      · rw [← h.1]
                        exact List.Forall₂.cons hsim hsim2
                  · exact absurd h (by simp)
              · next e st₂ hgen =>
                  obtain ⟨e', st₂', hgen'⟩ :=
                    generate_tool_from_operation_error hgen st'
                  obtain ⟨ts', st₁', haux', hsim2⟩ := ih _ _ _ h st₂'
                  refine ⟨ts', st₁', ?_, hsim2⟩
                  simp only [hgen', haux']

/-- C5 (amended): re-invoking `generate_tools` with the same document always
yields a catalog of the same length whose descriptors agree pairwise on
`description` and `inputSchema`; the `name` fields, however, depend on the
generator's persisted `tool_names` counter, so a second call on the same
instance generally appends path-derived suffixes (bit-identical output is
only guaranteed when the counter state is the same, e.g. on a fresh
generator per call). -/
theorem C5_rerun_same_shape (spec : PyVal) (st st' st₁ : NameState)
    (ts : List PyVal)
    (h : generate_tools spec st = (.ok ts, st₁)) :
    ∃ ts' st₁', generate_tools spec st' = (.ok ts', st₁') ∧
      List.Forall₂ toolSimilar ts ts' := by
  cases spec with
  | dict kvs =>
      rw [generate_tools_dict_eq] at h
      rw [generate_tools_dict_eq]
      split at h
      · next pk heq =>
          exact generate_tools_aux_state_independent (.dict kvs) pk st st₁ ts h st'
      · exact absurd h (by simp)
  | none => simp [generate_tools] at h
  | bool b => simp [generate_tools] at h
  | int n => simp [generate_tools] at h
  | str s' => simp [generate_tools] at h
  | list xs => simp [generate_tools] at h

/-- Witness for C5's amended theorem: rerunning on `c5Spec` from the state
left by a first run still yields one tool with the same description and
schema. -/
theorem C5_rerun_same_shape_witness :
    List.Forall₂ toolSimilar (toolsOfResult (generate_tools c5Spec []))
      (toolsOfResult (generate_tools c5Spec (generate_tools c5Spec []).2)) := by
  obtain ⟨ts', st₁', hgen, hsim⟩ :=
    C5_rerun_same_shape c5Spec [] (generate_tools c5Spec []).2 _ _ rfl
  have hres : toolsOfResult (generate_tools c5Spec (generate_tools c5Spec []).2) = ts' := by
    rw [hgen]
    rfl
  rw [hres]
  exact hsim

/-- C5 counterexample: on the single-endpoint document `c5Spec` the first
call emits the tool name `x`, but a second call on the same generator
instance (whose `tool_names` state now contains `x`) emits `x_a` — the two
ordered descriptor lists are not bit-identical. -/
theorem C5_counterexample :
    toolNames (toolsOfResult (generate_tools c5Spec [])) = [.str "x"] ∧
    toolNames (toolsOfResult (generate_tools c5Spec
      (generate_tools c5Spec []).2)) = [.str "x_a"] ∧
    PyVal.str "x" ≠ PyVal.str "x_a" := by
  refine ⟨rfl, rfl, pyStr_ne_of_ne (by decide)⟩

/-- C1: evaluating `generate_tools` on `c1Spec` — three GET endpoints whose
operations all carry `operationId` `x` — emits the name list
`[x, x_b, x_b]`: the suffix derived from `/b/\x7bid\x7d` collides with the
already-emitted suffixed name `x_b` derived from `/b`, because
`_make_unique_name` never records or re-checks the suffixed name.  The
emitted names are not pairwise distinct. -/
theorem C1_duplicate_names :
    (generate_tools c1Spec []).1.isOk = true ∧
    toolNames (toolsOfResult (generate_tools c1Spec [])) = c1Names ∧
    ¬ c1Names.Nodup := by
  refine ⟨rfl, rfl, ?_⟩
  intro hnd
  have h2 := (List.nodup_cons.mp hnd).2
  have h3 := (List.nodup_cons.mp h2).1
  exact h3 (List.mem_singleton.mpr rfl)

end PowerStore
